/- Verification development for the supplied equinox documentation material:
   the three example notebooks under docs/examples (stateful.ipynb,
   frozen_layer.ipynb, init_apply.ipynb) and the site configuration
   mkdocs.yml. The file texts are embedded verbatim; a JSON parser (an RFC
   8259 subset) and a block-style YAML parser check the document formats, a
   syntactic catalogue records the functions the notebooks define, and the
   dataloader and make_step training-step logic of frozen_layer.ipynb is
   modelled and proved correct. -/
import Mathlib

set_option maxRecDepth 20000
set_option maxHeartbeats 1000000

/-- JSON values, as in RFC 8259. Number literals are kept verbatim (they are
validated against the JSON number grammar by the scanner); object members keep
their source order. -/
inductive Json where
  | null : Json
  | bool (b : Bool) : Json
  | num (lit : String) : Json
  | str (s : String) : Json
  | arr (xs : List Json) : Json
  | obj (members : List (String × Json)) : Json

/-- Tokens of the JSON grammar; `bad` marks a scan error. -/
inductive JTok where
  | lbrace | rbrace | lbrack | rbrack | colon | comma
  | str (s : String)
  | num (lit : String)
  | tru | fls | nul
  | bad

def isJsonWs (c : Char) : Bool :=
  c.toNat = 32 || c.toNat = 9 || c.toNat = 10 || c.toNat = 13

def isDigitCh (c : Char) : Bool := 48 ≤ c.toNat && c.toNat ≤ 57

def isHexCh (c : Char) : Bool :=
  isDigitCh c || (97 ≤ c.toNat && c.toNat ≤ 102) || (65 ≤ c.toNat && c.toNat ≤ 70)

def hexVal (c : Char) : Nat :=
  if isDigitCh c then c.toNat - 48
  else if 97 ≤ c.toNat then c.toNat - 87
  else c.toNat - 55

def isAlphaCh (c : Char) : Bool := 97 ≤ c.toNat && c.toNat ≤ 122

/-- Characters that may continue a number literal. -/
def isNumCh (c : Char) : Bool :=
  isDigitCh c || c.toNat = 43 || c.toNat = 45 || c.toNat = 46 || c.toNat = 101 || c.toNat = 69

/-- digit* -/
def dropDigits : List Char → List Char := List.dropWhile isDigitCh

/-- int := 0 | [1-9] digit*, returning the rest of the literal. -/
def jsonNumIntPart : List Char → Option (List Char)
  | [] => none
  | c :: rest =>
    if c.toNat = 48 then some rest
    else if 49 ≤ c.toNat && c.toNat ≤ 57 then some (dropDigits rest)
    else none

/-- frac := . digit+ (optional). -/
def jsonNumFracPart : List Char → Option (List Char)
  | [] => some []
  | c :: rest =>
    if c.toNat = 46 then
      match rest with
      | d :: rest2 => if isDigitCh d then some (dropDigits rest2) else none
      | [] => none
    else some (c :: rest)

/-- exp := (e|E) [+|-] digit+ (optional). -/
def jsonNumExpPart : List Char → Option (List Char)
  | [] => some []
  | c :: rest =>
    if c.toNat = 101 || c.toNat = 69 then
      match rest with
      | d :: rest2 =>
        if isDigitCh d then some (dropDigits rest2)
        else if d.toNat = 43 || d.toNat = 45 then
          match rest2 with
          | e :: rest3 => if isDigitCh e then some (dropDigits rest3) else none
          | [] => none
        else none
      | [] => none
    else some (c :: rest)

/-- The RFC 8259 number grammar: [-] int [frac] [exp]. -/
def jsonNumOk (cs : List Char) : Bool :=
  let body := match cs with
    | c :: rest => if c.toNat = 45 then rest else cs
    | [] => cs
  match jsonNumIntPart body with
  | none => false
  | some r1 =>
    match jsonNumFracPart r1 with
    | none => false
    | some r2 =>
      match jsonNumExpPart r2 with
      | some [] => true
      | _ => false

/-- The number token for a finished literal, or `bad`. -/
def jsonNumTok (acc : List Char) : JTok :=
  let lit := acc.reverse
  if jsonNumOk lit then .num (String.mk lit) else .bad

/-- The keyword token for a finished word, or `bad`. -/
def jsonWordTok (acc : List Char) : JTok :=
  let w := acc.reverse
  if w = ['t','r','u','e'] then .tru
  else if w = ['f','a','l','s','e'] then .fls
  else if w = ['n','u','l','l'] then .nul
  else .bad

/-- Scanner modes: between tokens, inside a string, after a backslash, inside
a \u escape, inside a number literal, or inside a keyword. -/
inductive JMode where
  | top
  | strA (acc : List Char)
  | escA (acc : List Char)
  | hexA (acc : List Char) (digs : List Char)
  | numA (acc : List Char)
  | wordA (acc : List Char)

/-- Scan one character in between-token position: the tokens it emits (in
order; `bad` on an illegal character) and the next mode. -/
def jsonTopCh (c : Char) : List JTok × JMode :=
  if isJsonWs c then ([], .top)
  else if c.toNat = 123 then ([.lbrace], .top)
  else if c.toNat = 125 then ([.rbrace], .top)
  else if c.toNat = 91 then ([.lbrack], .top)
  else if c.toNat = 93 then ([.rbrack], .top)
  else if c.toNat = 58 then ([.colon], .top)
  else if c.toNat = 44 then ([.comma], .top)
  else if c.toNat = 34 then ([], .strA [])
  else if c.toNat = 45 || isDigitCh c then ([], .numA [c])
  else if isAlphaCh c then ([], .wordA [c])
  else ([.bad], .top)

/-- Scan one character: emitted tokens (in order) and the next mode. A `bad`
token marks a lexical error. -/
def jsonScanCh : JMode → Char → List JTok × JMode
  | .top, c => jsonTopCh c
  | .strA acc, c =>
    if c.toNat = 34 then ([.str (String.mk acc.reverse)], .top)
    else if c.toNat = 92 then ([], .escA acc)
    else if 32 ≤ c.toNat then ([], .strA (c :: acc))
    else ([.bad], .top)
  | .escA acc, c =>
    if c.toNat = 34 then ([], .strA (Char.ofNat 34 :: acc))
    else if c.toNat = 92 then ([], .strA (Char.ofNat 92 :: acc))
    else if c.toNat = 47 then ([], .strA (Char.ofNat 47 :: acc))
    else if c.toNat = 98 then ([], .strA (Char.ofNat 8 :: acc))
    else if c.toNat = 102 then ([], .strA (Char.ofNat 12 :: acc))
    else if c.toNat = 110 then ([], .strA (Char.ofNat 10 :: acc))
    else if c.toNat = 114 then ([], .strA (Char.ofNat 13 :: acc))
    else if c.toNat = 116 then ([], .strA (Char.ofNat 9 :: acc))
    else if c.toNat = 117 then ([], .hexA acc [])
    else ([.bad], .top)
  | .hexA acc digs, c =>
    if isHexCh c then
      if digs.length = 3 then
        let n := (digs ++ [c]).foldl (fun a d => 16 * a + hexVal d) 0
        if 55296 ≤ n && n ≤ 57343 then ([.bad], .top)
        else ([], .strA (Char.ofNat n :: acc))
      else ([], .hexA acc (digs ++ [c]))
    else ([.bad], .top)
  | .numA acc, c =>
    if isNumCh c then ([], .numA (c :: acc))
    else
      match jsonNumTok acc with
      | .bad => ([.bad], .top)
      | t => let (ts, m) := jsonTopCh c; (t :: ts, m)
  | .wordA acc, c =>
    if isAlphaCh c then ([], .wordA (c :: acc))
    else
      match jsonWordTok acc with
      | .bad => ([.bad], .top)
      | t => let (ts, m) := jsonTopCh c; (t :: ts, m)

/-- Tokens still owed at end of input (an unterminated string or escape is an
error; a pending number or keyword is finished). -/
def jsonScanEnd : JMode → List JTok
  | .top => []
  | .numA acc => [jsonNumTok acc]
  | .wordA acc => [jsonWordTok acc]
  | _ => [.bad]

/-- The token stream of a character stream (produced lazily, so that proofs
by evaluation never recurse more than a token's width deep). -/
def jsonScan : JMode → List Char → List JTok
  | m, [] => jsonScanEnd m
  | m, c :: cs =>
    match jsonScanCh m c with
    | (ts, m') => ts ++ jsonScan m' cs

/-- Open containers of the pushdown parser: an array with its items so far
(reversed), or an object with its members so far (reversed) and the key whose
value is being parsed. -/
inductive JFrame where
  | arrF (acc : List Json)
  | objF (acc : List (String × Json)) (key : String)

/-- States of the pushdown parser. -/
inductive JPSt where
  | expVal (stk : List JFrame)
  | expValOrRb (stk : List JFrame)
  | haveVal (stk : List JFrame) (v : Json)
  | expKey (stk : List JFrame) (acc : List (String × Json)) (first : Bool)
  | expColon (stk : List JFrame) (acc : List (String × Json)) (key : String)
  | perr

/-- Start of a value. -/
def jsonValStart (stk : List JFrame) (t : JTok) : JPSt :=
  match t with
  | .str s => .haveVal stk (.str s)
  | .num l => .haveVal stk (.num l)
  | .tru => .haveVal stk (.bool true)
  | .fls => .haveVal stk (.bool false)
  | .nul => .haveVal stk .null
  | .lbrack => .expValOrRb (.arrF [] :: stk)
  | .lbrace => .expKey stk [] true
  | _ => .perr

/-- One parser step. -/
def jsonParseStep (s : JPSt) (t : JTok) : JPSt :=
  match s with
  | .expVal stk => jsonValStart stk t
  | .expValOrRb stk =>
    match t, stk with
    | .rbrack, .arrF acc :: rest => .haveVal rest (.arr acc.reverse)
    | _, _ => jsonValStart stk t
  | .haveVal stk v =>
    match stk, t with
    | .arrF acc :: rest, .comma => .expVal (.arrF (v :: acc) :: rest)
    | .arrF acc :: rest, .rbrack => .haveVal rest (.arr (v :: acc).reverse)
    | .objF acc k :: rest, .comma => .expKey rest ((k, v) :: acc) false
    | .objF acc k :: rest, .rbrace => .haveVal rest (.obj ((k, v) :: acc).reverse)
    | _, _ => .perr
  | .expKey stk acc first =>
    match t with
    | .str k => .expColon stk acc k
    | .rbrace => if first then .haveVal stk (.obj acc.reverse) else .perr
    | _ => .perr
  | .expColon stk acc k =>
    match t with
    | .colon => .expVal (.objF acc k :: stk)
    | _ => .perr
  | .perr => .perr

/-- Run the parser over a token stream (the state is scrutinised at every
step, so evaluation forces it as it goes). -/
def jsonParseGo : JPSt → List JTok → Option Json
  | .haveVal [] v, [] => some v
  | _, [] => none
  | .perr, _ :: _ => none
  | st, t :: ts => jsonParseGo (jsonParseStep st t) ts

/-- Parse a JSON document: a sound parser for an RFC 8259 subset (`\u`
escapes denoting surrogate code units are rejected). -/
def jsonParse (s : String) : Option Json :=
  jsonParseGo (.expVal []) (jsonScan .top s.data)

/-- Concatenation of a list of strings; file texts are stored in chunks to
keep single string literals modest. -/
def concatStrs (l : List String) : String :=
  l.foldr (fun a b => a ++ b) ""


/-- The contents of docs/examples/stateful.ipynb verbatim (trailing packaging separator excluded), in chunks. -/
def statefulChunks : List String := [
  "\x7b\n \"cells\": [\n  \x7b\n   \"cell_type\": \"markdown\",\n   \"id\": \"feef57f0-b351-46af-821d-cf43bcbaf60d\",\n   \"metadata\": \x7b\x7d,\n   \"source\": [\n    \"# Stateful operations (e.g. BatchNorm)\\n\",\n    \"\\n\",\n    \"Some layers, such as [`equinox.nn.BatchNorm`][] are sometimes called \\\"stateful\\\": this refers to the fact that they take an additional input (in the case of BatchNorm, the running statistics) and return an additional output (the updated running statistics).\\n\",\n    \"\\n\",\n    \"This just means that we need to plumb an extra input and output through our models. This example demonstrates both [`equinox.nn.BatchNorm`][] and [`equinox.nn.SpectralNorm`][].\\n\",\n    \"\\n\",\n    \"See also the [stateful API referen",
  "ce](../api/nn/stateful.md).\\n\",\n    \"\\n\",\n    \"This example is available as a Jupyter notebook [here](https://github.com/patrick-kidger/equinox/blob/main/docs/examples/stateful.ipynb).\"\n   ]\n  \x7d,\n  \x7b\n   \"cell_type\": \"code\",\n   \"execution_count\": 1,\n   \"id\": \"c8e60412-cf59-4ba6-bbdb-3117e914f949\",\n   \"metadata\": \x7b\n    \"tags\": []\n   \x7d,\n   \"outputs\": [],\n   \"source\": [\n    \"import equinox as eqx\\n\",\n    \"import jax\\n\",\n    \"import jax.numpy as jnp\\n\",\n    \"import jax.random as jr\\n\",\n    \"import optax  # https://github.com/deepmind/optax\"\n   ]\n  \x7d,\n  \x7b\n   \"cell_type\": \"code\",\n   \"execution_count\": 2,\n   \"id\": \"c1c7d0d5-26bf-405b-a208-6cda4c12f8ff\",\n   \"metadata\": \x7b\x7d,\n   \"outputs\": [],\n   \"sourc",
  "e\": [\n    \"# This model is just a weird mish-mash of stateful and non-stateful layers for\\n\",\n    \"# demonstration purposes, it isn\x27t doing any clever.\\n\",\n    \"class Model(eqx.Module):\\n\",\n    \"    norm1: eqx.nn.BatchNorm\\n\",\n    \"    spectral_linear: eqx.nn.SpectralNorm[eqx.nn.Linear]\\n\",\n    \"    norm2: eqx.nn.BatchNorm\\n\",\n    \"    linear1: eqx.nn.Linear\\n\",\n    \"    linear2: eqx.nn.Linear\\n\",\n    \"\\n\",\n    \"    def __init__(self, key):\\n\",\n    \"        key1, key2, key3, key4 = jr.split(key, 4)\\n\",\n    \"        self.norm1 = eqx.nn.BatchNorm(input_size=3, axis_name=\\\"batch\\\")\\n\",\n    \"        self.spectral_linear = eqx.nn.SpectralNorm(\\n\",\n    \"            layer=eqx.nn.Linear(in_features=",
  "3, out_features=32, key=key1),\\n\",\n    \"            weight_name=\\\"weight\\\",\\n\",\n    \"            key=key2,\\n\",\n    \"        )\\n\",\n    \"        self.norm2 = eqx.nn.BatchNorm(input_size=32, axis_name=\\\"batch\\\")\\n\",\n    \"        self.linear1 = eqx.nn.Linear(in_features=32, out_features=32, key=key3)\\n\",\n    \"        self.linear2 = eqx.nn.Linear(in_features=32, out_features=3, key=key4)\\n\",\n    \"\\n\",\n    \"    def __call__(self, x, state):\\n\",\n    \"        x, state = self.norm1(x, state)\\n\",\n    \"        x, state = self.spectral_linear(x, state)\\n\",\n    \"        x = jax.nn.relu(x)\\n\",\n    \"        x, state = self.norm2(x, state)\\n\",\n    \"        x = self.linear1(x)\\n\",\n    \"        x = jax.nn.rel",
  "u(x)\\n\",\n    \"        x = self.linear2(x)\\n\",\n    \"        return x, state\"\n   ]\n  \x7d,\n  \x7b\n   \"cell_type\": \"markdown\",\n   \"id\": \"2b931647-01ff-4eb9-972f-55d3d50771c6\",\n   \"metadata\": \x7b\x7d,\n   \"source\": [\n    \"We see from the above that we just define our models like normal. As advertised, we just need to thread the additional `state` object in and out of every call. An updated state object is returned.\\n\",\n    \"\\n\",\n    \"There\x27s really nothing special here about stateful layers. Equinox isn\x27t special-casing them in any way. We thread `state` in and out, just like we\x27re thread `x` in and out. In fact calling it \\\"state\\\" is really just a matter of how it\x27s advertised!\\n\",\n    \"\\n\",\n    \"---\\n\",\n",
  "    \"\\n\",\n    \"Alright, now let\x27s see how we might train this model. This is also much like normal.\\n\",\n    \"\\n\",\n    \"Note the use of `in_axes` and `out_axes`: our data is batched, but our model state isn\x27t batched -- just like how our model parameters isn\x27t batched.\\n\",\n    \"\\n\",\n    \"Note how the `axis_name` argument matches the `axis_name` argument that the `BatchNorm` layers were initialised with. This tells `BatchNorm` which vmap\x27d axis it should compute statistics over. (This is a detail specific to `BatchNorm`, and is unrelated to stateful operations in general.)\"\n   ]\n  \x7d,\n  \x7b\n   \"cell_type\": \"code\",\n   \"execution_count\": 3,\n   \"id\": \"b8300043-aa88-4676-8501-ff338f1e741b\",\n   \"metad",
  "ata\": \x7b\x7d,\n   \"outputs\": [],\n   \"source\": [\n    \"def compute_loss(model, state, xs, ys):\\n\",\n    \"    batch_model = jax.vmap(\\n\",\n    \"        model, axis_name=\\\"batch\\\", in_axes=(0, None), out_axes=(0, None)\\n\",\n    \"    )\\n\",\n    \"    pred_ys, state = batch_model(xs, state)\\n\",\n    \"    loss = jnp.mean((pred_ys - ys) ** 2)\\n\",\n    \"    return loss, state\\n\",\n    \"\\n\",\n    \"\\n\",\n    \"@eqx.filter_jit\\n\",\n    \"def make_step(model, state, opt_state, xs, ys):\\n\",\n    \"    grads, state = eqx.filter_grad(compute_loss, has_aux=True)(model, state, xs, ys)\\n\",\n    \"    updates, opt_state = optim.update(grads, opt_state)\\n\",\n    \"    model = eqx.apply_updates(model, updates)\\n\",\n    \"    return model,",
  " state, opt_state\"\n   ]\n  \x7d,\n  \x7b\n   \"cell_type\": \"markdown\",\n   \"id\": \"d85113ae-7d63-4051-83bd-e9e921dfcae1\",\n   \"metadata\": \x7b\x7d,\n   \"source\": [\n    \"---\\n\",\n    \"\\n\",\n    \"And now, let\x27s see how we initialise this model, and initialise its state.\"\n   ]\n  \x7d,\n  \x7b\n   \"cell_type\": \"code\",\n   \"execution_count\": 4,\n   \"id\": \"3a7f49fd-9b91-462a-b1d5-dc694f56411e\",\n   \"metadata\": \x7b\n    \"tags\": []\n   \x7d,\n   \"outputs\": [],\n   \"source\": [\n    \"dataset_size = 10\\n\",\n    \"learning_rate = 3e-4\\n\",\n    \"steps = 5\\n\",\n    \"seed = 5678\\n\",\n    \"\\n\",\n    \"key = jr.PRNGKey(seed)\\n\",\n    \"mkey, xkey, xkey2 = jr.split(key, 3)\\n\",\n    \"\\n\",\n    \"model, state = eqx.nn.make_with_state(Model)(mkey)\\n\",\n    \"\\n\",\n    ",
  "\"xs = jr.normal(xkey, (dataset_size, 3))\\n\",\n    \"ys = jnp.sin(xs) + 1\\n\",\n    \"optim = optax.adam(learning_rate)\\n\",\n    \"opt_state = optim.init(eqx.filter(model, eqx.is_inexact_array))\\n\",\n    \"\\n\",\n    \"for _ in range(steps):\\n\",\n    \"    # Full-batch gradient descent in this simple example.\\n\",\n    \"    model, state, opt_state = make_step(model, state, opt_state, xs, ys)\"\n   ]\n  \x7d,\n  \x7b\n   \"cell_type\": \"markdown\",\n   \"id\": \"9c2135ba-07dc-4ce7-89c1-105bd699e78d\",\n   \"metadata\": \x7b\x7d,\n   \"source\": [\n    \"!!! Info \\\"What is `eqx.nn.make_with_state` doing?\\\"\\n\",\n    \"\\n\",\n    \"    Here we come to the only interesting bit about using stateful layers!\\n\",\n    \"\\n\",\n    \"    When we initialise the",
  " model -- e.g. if we were to call `Model(mkey)` directly -- then the model PyTree would be initialised containing both (a) the initial parameters, and (b) the initial state. So `make_with_state` simply calls this, and then separates these two things. The returned `model` is a PyTree holding all the initial parameters (just like any other model), and `state` is a PyTree holding the initial state.\\n\",\n    \"\\n\",\n    \"---\\n\",\n    \"\\n\",\n    \"Finally, let\x27s use our trained model to perform inference.\\n\",\n    \"\\n\",\n    \"Remember to set the inference flag! Some layers have different behaviour between training and inference, and `BatchNorm` is one of these. (This is a detail specific to layers like `",
  "BatchNorm` and [`equinox.nn.Dropout`][], and is unrelated to stateful operations in general.)\\n\",\n    \"\\n\",\n    \"We also fix the final state in the model, using [`equinox.Partial`][]. The resulting `inference_model` is a PyTree (specifically, an `equinox.Partial`) containing both `model` and `state`.\"\n   ]\n  \x7d,\n  \x7b\n   \"cell_type\": \"code\",\n   \"execution_count\": 5,\n   \"id\": \"c53cffd0-afd2-49c3-aa21-79eca5792598\",\n   \"metadata\": \x7b\x7d,\n   \"outputs\": [],\n   \"source\": [\n    \"inference_model = eqx.nn.inference_mode(model)\\n\",\n    \"inference_model = eqx.Partial(inference_model, state=state)\\n\",\n    \"\\n\",\n    \"\\n\",\n    \"@eqx.filter_jit\\n\",\n    \"def evaluate(model, xs):\\n\",\n    \"    # discard state\\n\",\n",
  "    \"    out, _ = jax.vmap(model)(xs)\\n\",\n    \"    return out\\n\",\n    \"\\n\",\n    \"\\n\",\n    \"test_dataset_size = 5\\n\",\n    \"test_xs = jr.normal(xkey2, (test_dataset_size, 3))\\n\",\n    \"pred_test_ys = evaluate(inference_model, test_xs)\"\n   ]\n  \x7d,\n  \x7b\n   \"cell_type\": \"markdown\",\n   \"id\": \"d22e4395-9006-465e-ba0b-a4b0d8131bd7\",\n   \"metadata\": \x7b\x7d,\n   \"source\": [\n    \"Here, we don\x27t need the updated state object that is produced, so we just discard it.\"\n   ]\n  \x7d\n ],\n \"metadata\": \x7b\n  \"kernelspec\": \x7b\n   \"display_name\": \"py311\",\n   \"language\": \"python\",\n   \"name\": \"py311\"\n  \x7d,\n  \"language_info\": \x7b\n   \"codemirror_mode\": \x7b\n    \"name\": \"ipython\",\n    \"version\": 3\n   \x7d,\n   \"file_extension\": \".py\",\n   \"mime",
  "type\": \"text/x-python\",\n   \"name\": \"python\",\n   \"nbconvert_exporter\": \"python\",\n   \"pygments_lexer\": \"ipython3\",\n   \"version\": \"3.11.3\"\n  \x7d\n \x7d,\n \"nbformat\": 4,\n \"nbformat_minor\": 5\n\x7d\n"]

/-- The contents of docs/examples/stateful.ipynb as one string. -/
def statefulText : String := concatStrs statefulChunks

/-- The JSON document of docs/examples/stateful.ipynb, mirroring the file. -/
def statefulJson : Json :=
  Json.obj [
    ("cells", Json.arr [
      Json.obj [
        ("cell_type", Json.str "markdown"),
        ("id", Json.str "feef57f0-b351-46af-821d-cf43bcbaf60d"),
        ("metadata", Json.obj []),
        ("source", Json.arr [
          Json.str "# Stateful operations (e.g. BatchNorm)\n",
          Json.str "\n",
          Json.str "Some layers, such as [`equinox.nn.BatchNorm`][] are sometimes called \"stateful\": this refers to the fact that they take an additional input (in the case of BatchNorm, the running statistics) and return an additional output (the updated running statistics).\n",
          Json.str "\n",
          Json.str "This just means that we need to plumb an extra input and output through our models. This example demonstrates both [`equinox.nn.BatchNorm`][] and [`equinox.nn.SpectralNorm`][].\n",
          Json.str "\n",
          Json.str "See also the [stateful API reference](../api/nn/stateful.md).\n",
          Json.str "\n",
          Json.str "This example is available as a Jupyter notebook [here](https://github.com/patrick-kidger/equinox/blob/main/docs/examples/stateful.ipynb)."])],
      Json.obj [
        ("cell_type", Json.str "code"),
        ("execution_count", Json.num "1"),
        ("id", Json.str "c8e60412-cf59-4ba6-bbdb-3117e914f949"),
        ("metadata", Json.obj [
          ("tags", Json.arr [])]),
        ("outputs", Json.arr []),
        ("source", Json.arr [
          Json.str "import equinox as eqx\n",
          Json.str "import jax\n",
          Json.str "import jax.numpy as jnp\n",
          Json.str "import jax.random as jr\n",
          Json.str "import optax  # https://github.com/deepmind/optax"])],
      Json.obj [
        ("cell_type", Json.str "code"),
        ("execution_count", Json.num "2"),
        ("id", Json.str "c1c7d0d5-26bf-405b-a208-6cda4c12f8ff"),
        ("metadata", Json.obj []),
        ("outputs", Json.arr []),
        ("source", Json.arr [
          Json.str "# This model is just a weird mish-mash of stateful and non-stateful layers for\n",
          Json.str "# demonstration purposes, it isn\x27t doing any clever.\n",
          Json.str "class Model(eqx.Module):\n",
          Json.str "    norm1: eqx.nn.BatchNorm\n",
          Json.str "    spectral_linear: eqx.nn.SpectralNorm[eqx.nn.Linear]\n",
          Json.str "    norm2: eqx.nn.BatchNorm\n",
          Json.str "    linear1: eqx.nn.Linear\n",
          Json.str "    linear2: eqx.nn.Linear\n",
          Json.str "\n",
          Json.str "    def __init__(self, key):\n",
          Json.str "        key1, key2, key3, key4 = jr.split(key, 4)\n",
          Json.str "        self.norm1 = eqx.nn.BatchNorm(input_size=3, axis_name=\"batch\")\n",
          Json.str "        self.spectral_linear = eqx.nn.SpectralNorm(\n",
          Json.str "            layer=eqx.nn.Linear(in_features=3, out_features=32, key=key1),\n",
          Json.str "            weight_name=\"weight\",\n",
          Json.str "            key=key2,\n",
          Json.str "        )\n",
          Json.str "        self.norm2 = eqx.nn.BatchNorm(input_size=32, axis_name=\"batch\")\n",
          Json.str "        self.linear1 = eqx.nn.Linear(in_features=32, out_features=32, key=key3)\n",
          Json.str "        self.linear2 = eqx.nn.Linear(in_features=32, out_features=3, key=key4)\n",
          Json.str "\n",
          Json.str "    def __call__(self, x, state):\n",
          Json.str "        x, state = self.norm1(x, state)\n",
          Json.str "        x, state = self.spectral_linear(x, state)\n",
          Json.str "        x = jax.nn.relu(x)\n",
          Json.str "        x, state = self.norm2(x, state)\n",
          Json.str "        x = self.linear1(x)\n",
          Json.str "        x = jax.nn.relu(x)\n",
          Json.str "        x = self.linear2(x)\n",
          Json.str "        return x, state"])],
      Json.obj [
        ("cell_type", Json.str "markdown"),
        ("id", Json.str "2b931647-01ff-4eb9-972f-55d3d50771c6"),
        ("metadata", Json.obj []),
        ("source", Json.arr [
          Json.str "We see from the above that we just define our models like normal. As advertised, we just need to thread the additional `state` object in and out of every call. An updated state object is returned.\n",
          Json.str "\n",
          Json.str "There\x27s really nothing special here about stateful layers. Equinox isn\x27t special-casing them in any way. We thread `state` in and out, just like we\x27re thread `x` in and out. In fact calling it \"state\" is really just a matter of how it\x27s advertised!\n",
          Json.str "\n",
          Json.str "---\n",
          Json.str "\n",
          Json.str "Alright, now let\x27s see how we might train this model. This is also much like normal.\n",
          Json.str "\n",
          Json.str "Note the use of `in_axes` and `out_axes`: our data is batched, but our model state isn\x27t batched -- just like how our model parameters isn\x27t batched.\n",
          Json.str "\n",
          Json.str "Note how the `axis_name` argument matches the `axis_name` argument that the `BatchNorm` layers were initialised with. This tells `BatchNorm` which vmap\x27d axis it should compute statistics over. (This is a detail specific to `BatchNorm`, and is unrelated to stateful operations in general.)"])],
      Json.obj [
        ("cell_type", Json.str "code"),
        ("execution_count", Json.num "3"),
        ("id", Json.str "b8300043-aa88-4676-8501-ff338f1e741b"),
        ("metadata", Json.obj []),
        ("outputs", Json.arr []),
        ("source", Json.arr [
          Json.str "def compute_loss(model, state, xs, ys):\n",
          Json.str "    batch_model = jax.vmap(\n",
          Json.str "        model, axis_name=\"batch\", in_axes=(0, None), out_axes=(0, None)\n",
          Json.str "    )\n",
          Json.str "    pred_ys, state = batch_model(xs, state)\n",
          Json.str "    loss = jnp.mean((pred_ys - ys) ** 2)\n",
          Json.str "    return loss, state\n",
          Json.str "\n",
          Json.str "\n",
          Json.str "@eqx.filter_jit\n",
          Json.str "def make_step(model, state, opt_state, xs, ys):\n",
          Json.str "    grads, state = eqx.filter_grad(compute_loss, has_aux=True)(model, state, xs, ys)\n",
          Json.str "    updates, opt_state = optim.update(grads, opt_state)\n",
          Json.str "    model = eqx.apply_updates(model, updates)\n",
          Json.str "    return model, state, opt_state"])],
      Json.obj [
        ("cell_type", Json.str "markdown"),
        ("id", Json.str "d85113ae-7d63-4051-83bd-e9e921dfcae1"),
        ("metadata", Json.obj []),
        ("source", Json.arr [
          Json.str "---\n",
          Json.str "\n",
          Json.str "And now, let\x27s see how we initialise this model, and initialise its state."])],
      Json.obj [
        ("cell_type", Json.str "code"),
        ("execution_count", Json.num "4"),
        ("id", Json.str "3a7f49fd-9b91-462a-b1d5-dc694f56411e"),
        ("metadata", Json.obj [
          ("tags", Json.arr [])]),
        ("outputs", Json.arr []),
        ("source", Json.arr [
          Json.str "dataset_size = 10\n",
          Json.str "learning_rate = 3e-4\n",
          Json.str "steps = 5\n",
          Json.str "seed = 5678\n",
          Json.str "\n",
          Json.str "key = jr.PRNGKey(seed)\n",
          Json.str "mkey, xkey, xkey2 = jr.split(key, 3)\n",
          Json.str "\n",
          Json.str "model, state = eqx.nn.make_with_state(Model)(mkey)\n",
          Json.str "\n",
          Json.str "xs = jr.normal(xkey, (dataset_size, 3))\n",
          Json.str "ys = jnp.sin(xs) + 1\n",
          Json.str "optim = optax.adam(learning_rate)\n",
          Json.str "opt_state = optim.init(eqx.filter(model, eqx.is_inexact_array))\n",
          Json.str "\n",
          Json.str "for _ in range(steps):\n",
          Json.str "    # Full-batch gradient descent in this simple example.\n",
          Json.str "    model, state, opt_state = make_step(model, state, opt_state, xs, ys)"])],
      Json.obj [
        ("cell_type", Json.str "markdown"),
        ("id", Json.str "9c2135ba-07dc-4ce7-89c1-105bd699e78d"),
        ("metadata", Json.obj []),
        ("source", Json.arr [
          Json.str "!!! Info \"What is `eqx.nn.make_with_state` doing?\"\n",
          Json.str "\n",
          Json.str "    Here we come to the only interesting bit about using stateful layers!\n",
          Json.str "\n",
          Json.str "    When we initialise the model -- e.g. if we were to call `Model(mkey)` directly -- then the model PyTree would be initialised containing both (a) the initial parameters, and (b) the initial state. So `make_with_state` simply calls this, and then separates these two things. The returned `model` is a PyTree holding all the initial parameters (just like any other model), and `state` is a PyTree holding the initial state.\n",
          Json.str "\n",
          Json.str "---\n",
          Json.str "\n",
          Json.str "Finally, let\x27s use our trained model to perform inference.\n",
          Json.str "\n",
          Json.str "Remember to set the inference flag! Some layers have different behaviour between training and inference, and `BatchNorm` is one of these. (This is a detail specific to layers like `BatchNorm` and [`equinox.nn.Dropout`][], and is unrelated to stateful operations in general.)\n",
          Json.str "\n",
          Json.str "We also fix the final state in the model, using [`equinox.Partial`][]. The resulting `inference_model` is a PyTree (specifically, an `equinox.Partial`) containing both `model` and `state`."])],
      Json.obj [
        ("cell_type", Json.str "code"),
        ("execution_count", Json.num "5"),
        ("id", Json.str "c53cffd0-afd2-49c3-aa21-79eca5792598"),
        ("metadata", Json.obj []),
        ("outputs", Json.arr []),
        ("source", Json.arr [
          Json.str "inference_model = eqx.nn.inference_mode(model)\n",
          Json.str "inference_model = eqx.Partial(inference_model, state=state)\n",
          Json.str "\n",
          Json.str "\n",
          Json.str "@eqx.filter_jit\n",
          Json.str "def evaluate(model, xs):\n",
          Json.str "    # discard state\n",
          Json.str "    out, _ = jax.vmap(model)(xs)\n",
          Json.str "    return out\n",
          Json.str "\n",
          Json.str "\n",
          Json.str "test_dataset_size = 5\n",
          Json.str "test_xs = jr.normal(xkey2, (test_dataset_size, 3))\n",
          Json.str "pred_test_ys = evaluate(inference_model, test_xs)"])],
      Json.obj [
        ("cell_type", Json.str "markdown"),
        ("id", Json.str "d22e4395-9006-465e-ba0b-a4b0d8131bd7"),
        ("metadata", Json.obj []),
        ("source", Json.arr [
          Json.str "Here, we don\x27t need the updated state object that is produced, so we just discard it."])]]),
    ("metadata", Json.obj [
      ("kernelspec", Json.obj [
        ("display_name", Json.str "py311"),
        ("language", Json.str "python"),
        ("name", Json.str "py311")]),
      ("language_info", Json.obj [
        ("codemirror_mode", Json.obj [
          ("name", Json.str "ipython"),
          ("version", Json.num "3")]),
        ("file_extension", Json.str ".py"),
        ("mimetype", Json.str "text/x-python"),
        ("name", Json.str "python"),
        ("nbconvert_exporter", Json.str "python"),
        ("pygments_lexer", Json.str "ipython3"),
        ("version", Json.str "3.11.3")])]),
    ("nbformat", Json.num "4"),
    ("nbformat_minor", Json.num "5")]

/-- The contents of docs/examples/frozen_layer.ipynb verbatim (trailing packaging separator excluded), in chunks. -/
def frozenLayerChunks : List String := [
  "\x7b\n \"cells\": [\n  \x7b\n   \"cell_type\": \"markdown\",\n   \"id\": \"71f37252-8e84-4521-b9c7-7fb107f599c1\",\n   \"metadata\": \x7b\x7d,\n   \"source\": [\n    \"# Freezing parameters\\n\",\n    \"\\n\",\n    \"In this example, we demonstrate how to only train some parameters and freeze the rest.\\n\",\n    \"\\n\",\n    \"This example is available as a Jupyter notebook [here](https://github.com/patrick-kidger/equinox/blob/main/docs/examples/frozen_layer.ipynb).\"\n   ]\n  \x7d,\n  \x7b\n   \"cell_type\": \"code\",\n   \"execution_count\": 1,\n   \"id\": \"9e127af2-03ac-47d7-b185-4b6b40d4cb7a\",\n   \"metadata\": \x7b\x7d,\n   \"outputs\": [],\n   \"source\": [\n    \"import equinox as eqx\\n\",\n    \"import jax\\n\",\n    \"import jax.numpy as jnp\\n\",\n    \"import jax.random as jr",
  "andom\\n\",\n    \"import jax.tree_util as jtu\\n\",\n    \"import optax  # https://github.com/deepmind/optax\"\n   ]\n  \x7d,\n  \x7b\n   \"cell_type\": \"code\",\n   \"execution_count\": 2,\n   \"id\": \"a5732648-7126-465f-b8b2-8d18a325f7c8\",\n   \"metadata\": \x7b\x7d,\n   \"outputs\": [],\n   \"source\": [\n    \"# Toy data\\n\",\n    \"def get_data(dataset_size, *, key):\\n\",\n    \"    x = jrandom.normal(key, (dataset_size, 1))\\n\",\n    \"    y = 5 * x - 2\\n\",\n    \"    return x, y\\n\",\n    \"\\n\",\n    \"\\n\",\n    \"# Toy dataloader\\n\",\n    \"def dataloader(arrays, batch_size, *, key):\\n\",\n    \"    dataset_size = arrays[0].shape[0]\\n\",\n    \"    assert all(array.shape[0] == dataset_size for array in arrays)\\n\",\n    \"    indices = jnp.arange(dataset_",
  "size)\\n\",\n    \"    while True:\\n\",\n    \"        perm = jrandom.permutation(key, indices)\\n\",\n    \"        (key,) = jrandom.split(key, 1)\\n\",\n    \"        start = 0\\n\",\n    \"        end = batch_size\\n\",\n    \"        while end < dataset_size:\\n\",\n    \"            batch_perm = perm[start:end]\\n\",\n    \"            yield tuple(array[batch_perm] for array in arrays)\\n\",\n    \"            start = end\\n\",\n    \"            end = start + batch_size\"\n   ]\n  \x7d,\n  \x7b\n   \"cell_type\": \"markdown\",\n   \"id\": \"1f8d3f12-9a34-4609-984d-adfce11a3e7a\",\n   \"metadata\": \x7b\x7d,\n   \"source\": [\n    \"Here, we:\\n\",\n    \"\\n\",\n    \"1. Set up a model. In this case, an MLP.\\n\",\n    \"2. Set up a `filter_spec`. This will be a PyTree",
  " of the same structure as the model, with `False` on every leaf -- except for the leaves corresponding to the final layer, which we set to `True`.\\n\",\n    \"3. Specify how to make a step. We\x27ll separate out the leaves we want to differentiate from the leaves that we want to leave alone by using [`equinox.partition`][].\"\n   ]\n  \x7d,\n  \x7b\n   \"cell_type\": \"code\",\n   \"execution_count\": 5,\n   \"id\": \"a8dbd053-6695-469c-8734-bd4326c81add\",\n   \"metadata\": \x7b\x7d,\n   \"outputs\": [],\n   \"source\": [\n    \"def main(\\n\",\n    \"    dataset_size=10000,\\n\",\n    \"    batch_size=256,\\n\",\n    \"    learning_rate=3e-3,\\n\",\n    \"    steps=1000,\\n\",\n    \"    width_size=8,\\n\",\n    \"    depth=1,\\n\",\n    \"    seed=5678,\\n\",\n   ",
  " \"):\\n\",\n    \"    data_key, loader_key, model_key = jrandom.split(jrandom.PRNGKey(seed), 3)\\n\",\n    \"    data = get_data(dataset_size, key=data_key)\\n\",\n    \"    data_iter = dataloader(data, batch_size, key=loader_key)\\n\",\n    \"\\n\",\n    \"    # Step 1\\n\",\n    \"    model = eqx.nn.MLP(\\n\",\n    \"        in_size=1, out_size=1, width_size=width_size, depth=depth, key=model_key\\n\",\n    \"    )\\n\",\n    \"\\n\",\n    \"    # Step 2\\n\",\n    \"    filter_spec = jtu.tree_map(lambda _: False, model)\\n\",\n    \"    filter_spec = eqx.tree_at(\\n\",\n    \"        lambda tree: (tree.layers[-1].weight, tree.layers[-1].bias),\\n\",\n    \"        filter_spec,\\n\",\n    \"        replace=(True, True),\\n\",\n    \"    )\\n\",\n    \"\\n\",",
  "\n    \"    # Step 3\\n\",\n    \"    @eqx.filter_jit\\n\",\n    \"    def make_step(model, x, y, opt_state):\\n\",\n    \"        @eqx.filter_grad\\n\",\n    \"        def loss(diff_model, static_model, x, y):\\n\",\n    \"            model = eqx.combine(diff_model, static_model)\\n\",\n    \"            pred_y = jax.vmap(model)(x)\\n\",\n    \"            return jnp.mean((y - pred_y) ** 2)\\n\",\n    \"\\n\",\n    \"        diff_model, static_model = eqx.partition(model, filter_spec)\\n\",\n    \"        grads = loss(diff_model, static_model, x, y)\\n\",\n    \"        updates, opt_state = optim.update(grads, opt_state)\\n\",\n    \"        model = eqx.apply_updates(model, updates)\\n\",\n    \"        return model, opt_state\\n\",\n    \"\\n\",\n  ",
  "  \"    # And now let\x27s train for a short while -- in exactly the usual way -- and see what\\n\",\n    \"    # happens. We keep the original model around to compare to later.\\n\",\n    \"    original_model = model\\n\",\n    \"    optim = optax.sgd(learning_rate)\\n\",\n    \"    opt_state = optim.init(model)\\n\",\n    \"    for step, (x, y) in zip(range(steps), data_iter):\\n\",\n    \"        model, opt_state = make_step(model, x, y, opt_state)\\n\",\n    \"    print(\\n\",\n    \"        f\\\"Parameters of first layer at initialisation:\\\\n\\\"\\n\",\n    \"        f\\\"\x7bjtu.tree_leaves(original_model.layers[0])\x7d\\\\n\\\"\\n\",\n    \"    )\\n\",\n    \"    print(\\n\",\n    \"        f\\\"Parameters of first layer at end of training:\\\\n\\\"\\n\",\n   ",
  " \"        f\\\"\x7bjtu.tree_leaves(model.layers[0])\x7d\\\\n\\\"\\n\",\n    \"    )\\n\",\n    \"    print(\\n\",\n    \"        f\\\"Parameters of last layer at initialisation:\\\\n\\\"\\n\",\n    \"        f\\\"\x7bjtu.tree_leaves(original_model.layers[-1])\x7d\\\\n\\\"\\n\",\n    \"    )\\n\",\n    \"    print(\\n\",\n    \"        f\\\"Parameters of last layer at end of training:\\\\n\\\"\\n\",\n    \"        f\\\"\x7bjtu.tree_leaves(model.layers[-1])\x7d\\\\n\\\"\\n\",\n    \"    )\"\n   ]\n  \x7d,\n  \x7b\n   \"cell_type\": \"markdown\",\n   \"id\": \"6e7c6894-f98e-46cc-9869-afe30ca40828\",\n   \"metadata\": \x7b\x7d,\n   \"source\": [\n    \"As we\x27ll see, the parameters of the first layer remain unchanged throughout training. Just the parameters of the last layer are trained.\"\n   ]\n  \x7d,\n  \x7b\n   \"cell_",
  "type\": \"code\",\n   \"execution_count\": 6,\n   \"id\": \"b96e16eb-20f9-4219-92b0-fe13d04db9e9\",\n   \"metadata\": \x7b\x7d,\n   \"outputs\": [\n    \x7b\n     \"name\": \"stdout\",\n     \"output_type\": \"stream\",\n     \"text\": [\n      \"Parameters of first layer at initialisation:\\n\",\n      \"[DeviceArray([[-0.5500405 ],\\n\",\n      \"             [ 0.67074966],\\n\",\n      \"             [-0.9094155 ],\\n\",\n      \"             [-0.5518596 ],\\n\",\n      \"             [-0.1648488 ],\\n\",\n      \"             [ 0.98241615],\\n\",\n      \"             [-0.9118581 ],\\n\",\n      \"             [ 0.32483125]], dtype=float32), DeviceArray([ 0.8876705 ,  0.4363706 , -0.878813  ,  0.26387787,\\n\",\n      \"             -0.68248963, -0.9517925 , -0.21",
  "384668, -0.2857628 ],            dtype=float32)]\\n\",\n      \"\\n\",\n      \"Parameters of first layer at end of training:\\n\",\n      \"[DeviceArray([[-0.5500405 ],\\n\",\n      \"             [ 0.67074966],\\n\",\n      \"             [-0.9094155 ],\\n\",\n      \"             [-0.5518596 ],\\n\",\n      \"             [-0.1648488 ],\\n\",\n      \"             [ 0.98241615],\\n\",\n      \"             [-0.9118581 ],\\n\",\n      \"             [ 0.32483125]], dtype=float32), DeviceArray([ 0.8876705 ,  0.4363706 , -0.878813  ,  0.26387787,\\n\",\n      \"             -0.68248963, -0.9517925 , -0.21384668, -0.2857628 ],            dtype=float32)]\\n\",\n      \"\\n\",\n      \"Parameters of last layer at initialisation:\\n\",\n      \"[Devi",
  "ceArray([[ 0.33031464,  0.16732198,  0.04151077, -0.01495699,\\n\",\n      \"              -0.00766617,  0.08186949,  0.33581698,  0.13139524]],            dtype=float32), DeviceArray([-0.05869024], dtype=float32)]\\n\",\n      \"\\n\",\n      \"Parameters of last layer at end of training:\\n\",\n      \"[DeviceArray([[-2.8348155 ,  3.3568215 , -0.767634  , -2.131908  ,\\n\",\n      \"              -0.00766617,  1.3563743 , -1.6294041 ,  0.60640407]],            dtype=float32), DeviceArray([-0.10058348], dtype=float32)]\\n\",\n      \"\\n\"\n     ]\n    \x7d\n   ],\n   \"source\": [\n    \"main()\"\n   ]\n  \x7d\n ],\n \"metadata\": \x7b\n  \"kernelspec\": \x7b\n   \"display_name\": \"py37\",\n   \"language\": \"python\",\n   \"name\": \"py37\"\n  \x7d,\n  \"language",
  "_info\": \x7b\n   \"codemirror_mode\": \x7b\n    \"name\": \"ipython\",\n    \"version\": 3\n   \x7d,\n   \"file_extension\": \".py\",\n   \"mimetype\": \"text/x-python\",\n   \"name\": \"python\",\n   \"nbconvert_exporter\": \"python\",\n   \"pygments_lexer\": \"ipython3\",\n   \"version\": \"3.8.13\"\n  \x7d,\n  \"vscode\": \x7b\n   \"interpreter\": \x7b\n    \"hash\": \"110cc1dee26208153f2972f08a2ad52b6a56238dc66d48e87fb757ef2996db56\"\n   \x7d\n  \x7d\n \x7d,\n \"nbformat\": 4,\n \"nbformat_minor\": 5\n\x7d\n"]

/-- The contents of docs/examples/frozen_layer.ipynb as one string. -/
def frozenLayerText : String := concatStrs frozenLayerChunks

/-- The JSON document of docs/examples/frozen_layer.ipynb, mirroring the file. -/
def frozenLayerJson : Json :=
  Json.obj [
    ("cells", Json.arr [
      Json.obj [
        ("cell_type", Json.str "markdown"),
        ("id", Json.str "71f37252-8e84-4521-b9c7-7fb107f599c1"),
        ("metadata", Json.obj []),
        ("source", Json.arr [
          Json.str "# Freezing parameters\n",
          Json.str "\n",
          Json.str "In this example, we demonstrate how to only train some parameters and freeze the rest.\n",
          Json.str "\n",
          Json.str "This example is available as a Jupyter notebook [here](https://github.com/patrick-kidger/equinox/blob/main/docs/examples/frozen_layer.ipynb)."])],
      Json.obj [
        ("cell_type", Json.str "code"),
        ("execution_count", Json.num "1"),
        ("id", Json.str "9e127af2-03ac-47d7-b185-4b6b40d4cb7a"),
        ("metadata", Json.obj []),
        ("outputs", Json.arr []),
        ("source", Json.arr [
          Json.str "import equinox as eqx\n",
          Json.str "import jax\n",
          Json.str "import jax.numpy as jnp\n",
          Json.str "import jax.random as jrandom\n",
          Json.str "import jax.tree_util as jtu\n",
          Json.str "import optax  # https://github.com/deepmind/optax"])],
      Json.obj [
        ("cell_type", Json.str "code"),
        ("execution_count", Json.num "2"),
        ("id", Json.str "a5732648-7126-465f-b8b2-8d18a325f7c8"),
        ("metadata", Json.obj []),
        ("outputs", Json.arr []),
        ("source", Json.arr [
          Json.str "# Toy data\n",
          Json.str "def get_data(dataset_size, *, key):\n",
          Json.str "    x = jrandom.normal(key, (dataset_size, 1))\n",
          Json.str "    y = 5 * x - 2\n",
          Json.str "    return x, y\n",
          Json.str "\n",
          Json.str "\n",
          Json.str "# Toy dataloader\n",
          Json.str "def dataloader(arrays, batch_size, *, key):\n",
          Json.str "    dataset_size = arrays[0].shape[0]\n",
          Json.str "    assert all(array.shape[0] == dataset_size for array in arrays)\n",
          Json.str "    indices = jnp.arange(dataset_size)\n",
          Json.str "    while True:\n",
          Json.str "        perm = jrandom.permutation(key, indices)\n",
          Json.str "        (key,) = jrandom.split(key, 1)\n",
          Json.str "        start = 0\n",
          Json.str "        end = batch_size\n",
          Json.str "        while end < dataset_size:\n",
          Json.str "            batch_perm = perm[start:end]\n",
          Json.str "            yield tuple(array[batch_perm] for array in arrays)\n",
          Json.str "            start = end\n",
          Json.str "            end = start + batch_size"])],
      Json.obj [
        ("cell_type", Json.str "markdown"),
        ("id", Json.str "1f8d3f12-9a34-4609-984d-adfce11a3e7a"),
        ("metadata", Json.obj []),
        ("source", Json.arr [
          Json.str "Here, we:\n",
          Json.str "\n",
          Json.str "1. Set up a model. In this case, an MLP.\n",
          Json.str "2. Set up a `filter_spec`. This will be a PyTree of the same structure as the model, with `False` on every leaf -- except for the leaves corresponding to the final layer, which we set to `True`.\n",
          Json.str "3. Specify how to make a step. We\x27ll separate out the leaves we want to differentiate from the leaves that we want to leave alone by using [`equinox.partition`][]."])],
      Json.obj [
        ("cell_type", Json.str "code"),
        ("execution_count", Json.num "5"),
        ("id", Json.str "a8dbd053-6695-469c-8734-bd4326c81add"),
        ("metadata", Json.obj []),
        ("outputs", Json.arr []),
        ("source", Json.arr [
          Json.str "def main(\n",
          Json.str "    dataset_size=10000,\n",
          Json.str "    batch_size=256,\n",
          Json.str "    learning_rate=3e-3,\n",
          Json.str "    steps=1000,\n",
          Json.str "    width_size=8,\n",
          Json.str "    depth=1,\n",
          Json.str "    seed=5678,\n",
          Json.str "):\n",
          Json.str "    data_key, loader_key, model_key = jrandom.split(jrandom.PRNGKey(seed), 3)\n",
          Json.str "    data = get_data(dataset_size, key=data_key)\n",
          Json.str "    data_iter = dataloader(data, batch_size, key=loader_key)\n",
          Json.str "\n",
          Json.str "    # Step 1\n",
          Json.str "    model = eqx.nn.MLP(\n",
          Json.str "        in_size=1, out_size=1, width_size=width_size, depth=depth, key=model_key\n",
          Json.str "    )\n",
          Json.str "\n",
          Json.str "    # Step 2\n",
          Json.str "    filter_spec = jtu.tree_map(lambda _: False, model)\n",
          Json.str "    filter_spec = eqx.tree_at(\n",
          Json.str "        lambda tree: (tree.layers[-1].weight, tree.layers[-1].bias),\n",
          Json.str "        filter_spec,\n",
          Json.str "        replace=(True, True),\n",
          Json.str "    )\n",
          Json.str "\n",
          Json.str "    # Step 3\n",
          Json.str "    @eqx.filter_jit\n",
          Json.str "    def make_step(model, x, y, opt_state):\n",
          Json.str "        @eqx.filter_grad\n",
          Json.str "        def loss(diff_model, static_model, x, y):\n",
          Json.str "            model = eqx.combine(diff_model, static_model)\n",
          Json.str "            pred_y = jax.vmap(model)(x)\n",
          Json.str "            return jnp.mean((y - pred_y) ** 2)\n",
          Json.str "\n",
          Json.str "        diff_model, static_model = eqx.partition(model, filter_spec)\n",
          Json.str "        grads = loss(diff_model, static_model, x, y)\n",
          Json.str "        updates, opt_state = optim.update(grads, opt_state)\n",
          Json.str "        model = eqx.apply_updates(model, updates)\n",
          Json.str "        return model, opt_state\n",
          Json.str "\n",
          Json.str "    # And now let\x27s train for a short while -- in exactly the usual way -- and see what\n",
          Json.str "    # happens. We keep the original model around to compare to later.\n",
          Json.str "    original_model = model\n",
          Json.str "    optim = optax.sgd(learning_rate)\n",
          Json.str "    opt_state = optim.init(model)\n",
          Json.str "    for step, (x, y) in zip(range(steps), data_iter):\n",
          Json.str "        model, opt_state = make_step(model, x, y, opt_state)\n",
          Json.str "    print(\n",
          Json.str "        f\"Parameters of first layer at initialisation:\\n\"\n",
          Json.str "        f\"\x7bjtu.tree_leaves(original_model.layers[0])\x7d\\n\"\n",
          Json.str "    )\n",
          Json.str "    print(\n",
          Json.str "        f\"Parameters of first layer at end of training:\\n\"\n",
          Json.str "        f\"\x7bjtu.tree_leaves(model.layers[0])\x7d\\n\"\n",
          Json.str "    )\n",
          Json.str "    print(\n",
          Json.str "        f\"Parameters of last layer at initialisation:\\n\"\n",
          Json.str "        f\"\x7bjtu.tree_leaves(original_model.layers[-1])\x7d\\n\"\n",
          Json.str "    )\n",
          Json.str "    print(\n",
          Json.str "        f\"Parameters of last layer at end of training:\\n\"\n",
          Json.str "        f\"\x7bjtu.tree_leaves(model.layers[-1])\x7d\\n\"\n",
          Json.str "    )"])],
      Json.obj [
        ("cell_type", Json.str "markdown"),
        ("id", Json.str "6e7c6894-f98e-46cc-9869-afe30ca40828"),
        ("metadata", Json.obj []),
        ("source", Json.arr [
          Json.str "As we\x27ll see, the parameters of the first layer remain unchanged throughout training. Just the parameters of the last layer are trained."])],
      Json.obj [
        ("cell_type", Json.str "code"),
        ("execution_count", Json.num "6"),
        ("id", Json.str "b96e16eb-20f9-4219-92b0-fe13d04db9e9"),
        ("metadata", Json.obj []),
        ("outputs", Json.arr [
          Json.obj [
            ("name", Json.str "stdout"),
            ("output_type", Json.str "stream"),
            ("text", Json.arr [
              Json.str "Parameters of first layer at initialisation:\n",
              Json.str "[DeviceArray([[-0.5500405 ],\n",
              Json.str "             [ 0.67074966],\n",
              Json.str "             [-0.9094155 ],\n",
              Json.str "             [-0.5518596 ],\n",
              Json.str "             [-0.1648488 ],\n",
              Json.str "             [ 0.98241615],\n",
              Json.str "             [-0.9118581 ],\n",
              Json.str "             [ 0.32483125]], dtype=float32), DeviceArray([ 0.8876705 ,  0.4363706 , -0.878813  ,  0.26387787,\n",
              Json.str "             -0.68248963, -0.9517925 , -0.21384668, -0.2857628 ],            dtype=float32)]\n",
              Json.str "\n",
              Json.str "Parameters of first layer at end of training:\n",
              Json.str "[DeviceArray([[-0.5500405 ],\n",
              Json.str "             [ 0.67074966],\n",
              Json.str "             [-0.9094155 ],\n",
              Json.str "             [-0.5518596 ],\n",
              Json.str "             [-0.1648488 ],\n",
              Json.str "             [ 0.98241615],\n",
              Json.str "             [-0.9118581 ],\n",
              Json.str "             [ 0.32483125]], dtype=float32), DeviceArray([ 0.8876705 ,  0.4363706 , -0.878813  ,  0.26387787,\n",
              Json.str "             -0.68248963, -0.9517925 , -0.21384668, -0.2857628 ],            dtype=float32)]\n",
              Json.str "\n",
              Json.str "Parameters of last layer at initialisation:\n",
              Json.str "[DeviceArray([[ 0.33031464,  0.16732198,  0.04151077, -0.01495699,\n",
              Json.str "              -0.00766617,  0.08186949,  0.33581698,  0.13139524]],            dtype=float32), DeviceArray([-0.05869024], dtype=float32)]\n",
              Json.str "\n",
              Json.str "Parameters of last layer at end of training:\n",
              Json.str "[DeviceArray([[-2.8348155 ,  3.3568215 , -0.767634  , -2.131908  ,\n",
              Json.str "              -0.00766617,  1.3563743 , -1.6294041 ,  0.60640407]],            dtype=float32), DeviceArray([-0.10058348], dtype=float32)]\n",
              Json.str "\n"])]]),
        ("source", Json.arr [
          Json.str "main()"])]]),
    ("metadata", Json.obj [
      ("kernelspec", Json.obj [
        ("display_name", Json.str "py37"),
        ("language", Json.str "python"),
        ("name", Json.str "py37")]),
      ("language_info", Json.obj [
        ("codemirror_mode", Json.obj [
          ("name", Json.str "ipython"),
          ("version", Json.num "3")]),
        ("file_extension", Json.str ".py"),
        ("mimetype", Json.str "text/x-python"),
        ("name", Json.str "python"),
        ("nbconvert_exporter", Json.str "python"),
        ("pygments_lexer", Json.str "ipython3"),
        ("version", Json.str "3.8.13")]),
      ("vscode", Json.obj [
        ("interpreter", Json.obj [
          ("hash", Json.str "110cc1dee26208153f2972f08a2ad52b6a56238dc66d48e87fb757ef2996db56")])])]),
    ("nbformat", Json.num "4"),
    ("nbformat_minor", Json.num "5")]

/-- The contents of docs/examples/init_apply.ipynb verbatim (trailing packaging separator excluded), in chunks. -/
def initApplyChunks : List String := [
  "\x7b\n \"cells\": [\n  \x7b\n   \"cell_type\": \"markdown\",\n   \"id\": \"14148da3-23fb-480b-ae31-93878cda86fa\",\n   \"metadata\": \x7b\x7d,\n   \"source\": [\n    \"# Compatibility with init-apply libraries\\n\",\n    \"\\n\",\n    \"Existing JAX neural network libraries have sometimes followed the \\\"init/apply\\\" approach, in which the parameters of a network are initialised with a function `init()`, and then the forward pass through a model is specified with `apply()`. For example [Stax](https://jax.readthedocs.io/en/latest/jax.example_libraries.stax.html) follows this approach.\\n\",\n    \"\\n\",\n    \"As a result, some third-party libraries assume that your model is specified by an `init()` and an `apply()` function, and that the pa",
  "rameters returned from `init()` are all JIT-trace-able and grad-able.\\n\",\n    \"\\n\",\n    \"Equinox can be made to fit with this style very easily, like so.\\n\",\n    \"\\n\",\n    \"This example is available as a Jupyter notebook [here](https://github.com/patrick-kidger/equinox/blob/main/docs/examples/init_apply.ipynb).\"\n   ]\n  \x7d,\n  \x7b\n   \"cell_type\": \"code\",\n   \"execution_count\": 1,\n   \"id\": \"05bcc516-c80a-492b-af63-0e5dec66f438\",\n   \"metadata\": \x7b\x7d,\n   \"outputs\": [],\n   \"source\": [\n    \"import equinox as eqx\\n\",\n    \"\\n\",\n    \"\\n\",\n    \"def make_mlp(in_size, out_size, width_size, depth, *, key):\\n\",\n    \"    mlp = eqx.nn.MLP(\\n\",\n    \"        in_size, out_size, width_size, depth, key=key\\n\",\n    \"   ",
  " )  # insert your model here\\n\",\n    \"    params, static = eqx.partition(mlp, eqx.is_inexact_array)\\n\",\n    \"\\n\",\n    \"    def init_fn():\\n\",\n    \"        return params\\n\",\n    \"\\n\",\n    \"    def apply_fn(_params, x):\\n\",\n    \"        model = eqx.combine(_params, static)\\n\",\n    \"        return model(x)\\n\",\n    \"\\n\",\n    \"    return init_fn, apply_fn\"\n   ]\n  \x7d,\n  \x7b\n   \"cell_type\": \"markdown\",\n   \"id\": \"5965f2e9-483a-475e-b316-a595daf6eb0f\",\n   \"metadata\": \x7b\x7d,\n   \"source\": [\n    \"And that\x27s all there is to it.\\n\",\n    \"\\n\",\n    \"Example usage:\"\n   ]\n  \x7d,\n  \x7b\n   \"cell_type\": \"code\",\n   \"execution_count\": 2,\n   \"id\": \"e25e63c7-3cb6-4727-9c28-0016b03acb87\",\n   \"metadata\": \x7b\x7d,\n   \"outputs\": [],\n ",
  "  \"source\": [\n    \"import jax.numpy as jnp\\n\",\n    \"import jax.random as jrandom\\n\",\n    \"import jax.tree_util as jtu\\n\",\n    \"\\n\",\n    \"\\n\",\n    \"def main(in_size=2, seed=5678):\\n\",\n    \"    key = jrandom.PRNGKey(seed)\\n\",\n    \"\\n\",\n    \"    init_fn, apply_fn = make_mlp(\\n\",\n    \"        in_size=in_size, out_size=1, width_size=8, depth=1, key=key\\n\",\n    \"    )\\n\",\n    \"\\n\",\n    \"    x = jnp.arange(in_size)  # sample data\\n\",\n    \"    params = init_fn()\\n\",\n    \"    y1 = apply_fn(params, x)\\n\",\n    \"    params = jtu.tree_map(lambda p: p + 1, params)  # \\\"stochastic gradient descent\\\"\\n\",\n    \"    y2 = apply_fn(params, x)\\n\",\n    \"    assert y1 != y2\\n\",\n    \"\\n\",\n    \"\\n\",\n    \"main()\"\n   ]",
  "\n  \x7d\n ],\n \"metadata\": \x7b\n  \"kernelspec\": \x7b\n   \"display_name\": \"jax0226\",\n   \"language\": \"python\",\n   \"name\": \"jax0226\"\n  \x7d,\n  \"language_info\": \x7b\n   \"codemirror_mode\": \x7b\n    \"name\": \"ipython\",\n    \"version\": 3\n   \x7d,\n   \"file_extension\": \".py\",\n   \"mimetype\": \"text/x-python\",\n   \"name\": \"python\",\n   \"nbconvert_exporter\": \"python\",\n   \"pygments_lexer\": \"ipython3\",\n   \"version\": \"3.8.12\"\n  \x7d\n \x7d,\n \"nbformat\": 4,\n \"nbformat_minor\": 5\n\x7d\n"]

/-- The contents of docs/examples/init_apply.ipynb as one string. -/
def initApplyText : String := concatStrs initApplyChunks

/-- The JSON document of docs/examples/init_apply.ipynb, mirroring the file. -/
def initApplyJson : Json :=
  Json.obj [
    ("cells", Json.arr [
      Json.obj [
        ("cell_type", Json.str "markdown"),
        ("id", Json.str "14148da3-23fb-480b-ae31-93878cda86fa"),
        ("metadata", Json.obj []),
        ("source", Json.arr [
          Json.str "# Compatibility with init-apply libraries\n",
          Json.str "\n",
          Json.str "Existing JAX neural network libraries have sometimes followed the \"init/apply\" approach, in which the parameters of a network are initialised with a function `init()`, and then the forward pass through a model is specified with `apply()`. For example [Stax](https://jax.readthedocs.io/en/latest/jax.example_libraries.stax.html) follows this approach.\n",
          Json.str "\n",
          Json.str "As a result, some third-party libraries assume that your model is specified by an `init()` and an `apply()` function, and that the parameters returned from `init()` are all JIT-trace-able and grad-able.\n",
          Json.str "\n",
          Json.str "Equinox can be made to fit with this style very easily, like so.\n",
          Json.str "\n",
          Json.str "This example is available as a Jupyter notebook [here](https://github.com/patrick-kidger/equinox/blob/main/docs/examples/init_apply.ipynb)."])],
      Json.obj [
        ("cell_type", Json.str "code"),
        ("execution_count", Json.num "1"),
        ("id", Json.str "05bcc516-c80a-492b-af63-0e5dec66f438"),
        ("metadata", Json.obj []),
        ("outputs", Json.arr []),
        ("source", Json.arr [
          Json.str "import equinox as eqx\n",
          Json.str "\n",
          Json.str "\n",
          Json.str "def make_mlp(in_size, out_size, width_size, depth, *, key):\n",
          Json.str "    mlp = eqx.nn.MLP(\n",
          Json.str "        in_size, out_size, width_size, depth, key=key\n",
          Json.str "    )  # insert your model here\n",
          Json.str "    params, static = eqx.partition(mlp, eqx.is_inexact_array)\n",
          Json.str "\n",
          Json.str "    def init_fn():\n",
          Json.str "        return params\n",
          Json.str "\n",
          Json.str "    def apply_fn(_params, x):\n",
          Json.str "        model = eqx.combine(_params, static)\n",
          Json.str "        return model(x)\n",
          Json.str "\n",
          Json.str "    return init_fn, apply_fn"])],
      Json.obj [
        ("cell_type", Json.str "markdown"),
        ("id", Json.str "5965f2e9-483a-475e-b316-a595daf6eb0f"),
        ("metadata", Json.obj []),
        ("source", Json.arr [
          Json.str "And that\x27s all there is to it.\n",
          Json.str "\n",
          Json.str "Example usage:"])],
      Json.obj [
        ("cell_type", Json.str "code"),
        ("execution_count", Json.num "2"),
        ("id", Json.str "e25e63c7-3cb6-4727-9c28-0016b03acb87"),
        ("metadata", Json.obj []),
        ("outputs", Json.arr []),
        ("source", Json.arr [
          Json.str "import jax.numpy as jnp\n",
          Json.str "import jax.random as jrandom\n",
          Json.str "import jax.tree_util as jtu\n",
          Json.str "\n",
          Json.str "\n",
          Json.str "def main(in_size=2, seed=5678):\n",
          Json.str "    key = jrandom.PRNGKey(seed)\n",
          Json.str "\n",
          Json.str "    init_fn, apply_fn = make_mlp(\n",
          Json.str "        in_size=in_size, out_size=1, width_size=8, depth=1, key=key\n",
          Json.str "    )\n",
          Json.str "\n",
          Json.str "    x = jnp.arange(in_size)  # sample data\n",
          Json.str "    params = init_fn()\n",
          Json.str "    y1 = apply_fn(params, x)\n",
          Json.str "    params = jtu.tree_map(lambda p: p + 1, params)  # \"stochastic gradient descent\"\n",
          Json.str "    y2 = apply_fn(params, x)\n",
          Json.str "    assert y1 != y2\n",
          Json.str "\n",
          Json.str "\n",
          Json.str "main()"])]]),
    ("metadata", Json.obj [
      ("kernelspec", Json.obj [
        ("display_name", Json.str "jax0226"),
        ("language", Json.str "python"),
        ("name", Json.str "jax0226")]),
      ("language_info", Json.obj [
        ("codemirror_mode", Json.obj [
          ("name", Json.str "ipython"),
          ("version", Json.num "3")]),
        ("file_extension", Json.str ".py"),
        ("mimetype", Json.str "text/x-python"),
        ("name", Json.str "python"),
        ("nbconvert_exporter", Json.str "python"),
        ("pygments_lexer", Json.str "ipython3"),
        ("version", Json.str "3.8.12")])]),
    ("nbformat", Json.num "4"),
    ("nbformat_minor", Json.num "5")]


/-- YAML values for the block-style subset used by the site configuration:
scalars (kept as their string content), block sequences and block mappings. -/
inductive Yaml where
  | scalar (s : String)
  | seq (xs : List Yaml)
  | ymap (entries : List (String × Yaml))

/-- Split a character stream at newlines. -/
def splitLinesGo : List Char → List Char → List (List Char)
  | acc, [] => [acc.reverse]
  | acc, c :: cs =>
    if c.toNat = 10 then acc.reverse :: splitLinesGo [] cs
    else splitLinesGo (c :: acc) cs

def splitLines (cs : List Char) : List (List Char) := splitLinesGo [] cs

/-- Strip a YAML comment from a line: a # preceded by a space (or at line
start) and standing outside single or double quotes starts a comment. The
first argument is the quoting mode (0 none, 1 single, 2 double), the second
whether the previous character allows a comment to start. -/
def stripCommentGo : Nat → Bool → List Char → List Char
  | _, _, [] => []
  | 1, _, c :: cs =>
    if c.toNat = 39 then c :: stripCommentGo 0 false cs
    else c :: stripCommentGo 1 false cs
  | 2, _, c :: cs =>
    if c.toNat = 34 then c :: stripCommentGo 0 false cs
    else if c.toNat = 92 then
      match cs with
      | d :: rest => c :: d :: stripCommentGo 2 false rest
      | [] => [c]
    else c :: stripCommentGo 2 false cs
  | _, pv, c :: cs =>
    if c.toNat = 35 && pv then []
    else if c.toNat = 39 then c :: stripCommentGo 1 false cs
    else if c.toNat = 34 then c :: stripCommentGo 2 false cs
    else c :: stripCommentGo 0 (c.toNat = 32) cs

def isSpaceCh (c : Char) : Bool := c.toNat = 32

def ltrimSpaces (cs : List Char) : List Char := cs.dropWhile isSpaceCh

def rtrimSpaces (cs : List Char) : List Char := (cs.reverse.dropWhile isSpaceCh).reverse

/-- A physical line after comment stripping: its indentation and content. -/
structure YLine where
  indent : Nat
  content : List Char

def toYLine (cs : List Char) : YLine :=
  let s := rtrimSpaces (stripCommentGo 0 true cs)
  let ind := (s.takeWhile isSpaceCh).length
  ⟨ind, s.drop ind⟩

/-- The significant lines of a YAML document: comments stripped, blank and
comment-only lines dropped. -/
def yamlLines (cs : List Char) : List YLine :=
  ((splitLines cs).map toYLine).filter (fun l => !l.content.isEmpty)

/-- Does a line's content start a block-sequence item (`- ` or a lone `-`)? -/
def isSeqStart : List Char → Bool
  | [c] => c.toNat = 45
  | c :: d :: _ => c.toNat = 45 && d.toNat = 32
  | [] => false

def seqItemContent (cs : List Char) : List Char := ltrimSpaces (cs.drop 1)

/-- Split `key: value` (or a trailing `key:`) at the first colon followed by
a space or the line end. -/
def splitKeyGo : List Char → List Char → Option (List Char × List Char)
  | _, [] => none
  | acc, c :: cs =>
    if c.toNat = 58 then
      match cs with
      | [] => some (acc.reverse, [])
      | d :: rest =>
        if d.toNat = 32 then some (acc.reverse, ltrimSpaces rest)
        else splitKeyGo (c :: acc) cs
    else splitKeyGo (c :: acc) cs

/-- Contents of a single-quoted scalar; an escaped pair `''` denotes one
quote, a lone quote may not occur. -/
def unquoteSq : List Char → Option (List Char)
  | [] => some []
  | c :: cs =>
    if c.toNat = 39 then
      match cs with
      | d :: rest =>
        if d.toNat = 39 then (unquoteSq rest).map (fun r => Char.ofNat 39 :: r)
        else none
      | [] => none
    else (unquoteSq cs).map (fun r => c :: r)

/-- Contents of a double-quoted scalar; only the escapes \\ and \" of the
full YAML repertoire are supported. -/
def unquoteDq : List Char → Option (List Char)
  | [] => some []
  | c :: cs =>
    if c.toNat = 92 then
      match cs with
      | d :: rest =>
        if d.toNat = 34 || d.toNat = 92 then (unquoteDq rest).map (fun r => d :: r)
        else none
      | [] => none
    else if c.toNat = 34 then none
    else (unquoteDq cs).map (fun r => c :: r)

/-- A scalar: single-quoted, double-quoted, or plain (kept verbatim). -/
def yamlScalar (cs : List Char) : Option Yaml :=
  match cs with
  | [] => none
  | c :: rest =>
    if c.toNat = 39 then
      match rest.reverse with
      | last :: midRev =>
        if last.toNat = 39 then (unquoteSq midRev.reverse).map (fun l => .scalar (String.mk l))
        else none
      | [] => none
    else if c.toNat = 34 then
      match rest.reverse with
      | last :: midRev =>
        if last.toNat = 34 then (unquoteDq midRev.reverse).map (fun l => .scalar (String.mk l))
        else none
      | [] => none
    else some (.scalar (String.mk cs))

mutual

/-- Parse the block starting at the first line's indentation; returns the
value and the unconsumed lines. A one-line block that is not a sequence item
and not a mapping entry is a scalar. -/
def yamlNode : Nat → List YLine → Option (Yaml × List YLine)
  | 0, _ => none
  | _ + 1, [] => none
  | fuel + 1, l :: rest =>
    if isSeqStart l.content then
      match yamlSeqItems fuel l.indent (l :: rest) with
      | some (xs, rem) => some (.seq xs, rem)
      | none => none
    else
      match splitKeyGo [] l.content with
      | some _ =>
        match yamlMapEntries fuel l.indent (l :: rest) with
        | some (es, rem) => some (.ymap es, rem)
        | none => none
      | none =>
        if rest.isEmpty then (yamlScalar l.content).map (fun v => (v, []))
        else none

/-- Parse the consecutive `- ` items of a block sequence at indentation i.
An item's inline content continues at column i + 2; its following more deeply
indented lines form its block. -/
def yamlSeqItems : Nat → Nat → List YLine → Option (List Yaml × List YLine)
  | 0, _, _ => none
  | _ + 1, _, [] => some ([], [])
  | fuel + 1, i, l :: rest =>
    if l.indent = i && isSeqStart l.content then
      let sub := rest.takeWhile (fun l2 => i < l2.indent)
      let rem0 := rest.dropWhile (fun l2 => i < l2.indent)
      let content := seqItemContent l.content
      let block := if content.isEmpty then sub else ⟨i + 2, content⟩ :: sub
      match yamlNode fuel block with
      | some (v, []) =>
        match yamlSeqItems fuel i rem0 with
        | some (xs, rem) => some (v :: xs, rem)
        | none => none
      | _ => none
    else some ([], l :: rest)

/-- Parse the consecutive `key: value` / `key:` entries of a block mapping at
indentation i; a keyed entry with no inline value takes the following more
deeply indented lines as its block. -/
def yamlMapEntries : Nat → Nat → List YLine → Option (List (String × Yaml) × List YLine)
  | 0, _, _ => none
  | _ + 1, _, [] => some ([], [])
  | fuel + 1, i, l :: rest =>
    if l.indent = i && !isSeqStart l.content then
      match splitKeyGo [] l.content with
      | none => none
      | some (k, v) =>
        let sub := rest.takeWhile (fun l2 => i < l2.indent)
        let rem0 := rest.dropWhile (fun l2 => i < l2.indent)
        if v.isEmpty then
          match yamlNode fuel sub with
          | some (vv, []) =>
            match yamlMapEntries fuel i rem0 with
            | some (es, rem) => some ((String.mk k, vv) :: es, rem)
            | none => none
          | _ => none
        else if sub.isEmpty then
          match yamlScalar v with
          | some vv =>
            match yamlMapEntries fuel i rem0 with
            | some (es, rem) => some ((String.mk k, vv) :: es, rem)
            | none => none
          | none => none
        else none
    else some ([], l :: rest)

end

/-- Parse a YAML document in the block-style subset implemented above. -/
def yamlParse (s : String) : Option Yaml :=
  let ls := yamlLines s.data
  match yamlNode (2 * ls.length + 2) ls with
  | some (v, []) => some v
  | _ => none

/-- The contents of mkdocs.yml verbatim, in chunks. -/
def mkdocsChunks : List String := [
  "theme:\n    name: material\n    features:\n        - navigation.sections  # Sections are included in the navigation on the left.\n        - toc.integrate  # Table of contents is integrated on the left; does not appear separately on the right.\n        - header.autohide  # header disappears as you scroll\n        - content.code.copy\n    palette:\n        # Light mode / dark mode\n        # We deliberately don\x27t automatically use `media` to check a user\x27s preferences. We default to light mode as\n        # (a) it looks more professional, and (b) is more obvious about the fact that it offers a (dark mode) toggle.\n        - scheme: default\n          primary: white\n          accent: amber\n          toggle",
  ":\n             icon: material/weather-night\n             name: Switch to dark mode\n        - scheme: slate\n          primary: black\n          accent: amber\n          toggle:\n             icon: material/weather-sunny\n             name: Switch to light mode\n    icon:\n        repo: fontawesome/brands/github  # GitHub logo in top right\n        logo: \"material/circle-opacity\"  # Equinox logo in top left\n    favicon: \"_static/favicon.png\"\n    custom_dir: \"docs/_overrides\"  # Overriding part of the HTML\n\n    # These additions are my own custom ones, having overridden a partial.\n    twitter_bluesky_name: \"@PatrickKidger\"\n    twitter_url: \"https://twitter.com/PatrickKidger\"\n    bluesky_url: \"https://",
  "PatrickKidger.bsky.social\"\n\nsite_name: Equinox\nsite_description: The documentation for the Equinox software library.\nsite_author: Patrick Kidger\nsite_url: https://docs.kidger.site/equinox\n\nrepo_url: https://github.com/patrick-kidger/equinox\nrepo_name: patrick-kidger/equinox\nedit_uri: \"\"\n\nstrict: true  # Don\x27t allow warnings during the build process\n\nextra_javascript: \n    # The below two make MathJax work, see https://squidfunk.github.io/mkdocs-material/reference/mathjax/\n    - _static/mathjax.js\n    - https://cdn.jsdelivr.net/npm/mathjax@3/es5/tex-mml-chtml.js\n\nextra_css:\n    - _static/custom_css.css\n\nmarkdown_extensions:\n    - pymdownx.arithmatex:  # Render LaTeX via MathJax\n        generi",
  "c: true\n    - pymdownx.superfences  # Seems to enable syntax highlighting when used with the Material theme.\n    - pymdownx.details  # Allowing hidden expandable regions denoted by ???\n    - pymdownx.snippets:  # Include one Markdown file into another\n        base_path: docs\n    - admonition\n    - toc:\n        permalink: \"\u00a4\"  # Adds a clickable permalink to each section heading\n        toc_depth: 4\n\nplugins:\n    - search:\n        # See https://github.com/squidfunk/mkdocs-material/discussions/8116#discussioncomment-12632752\n        # and https://github.com/patrick-kidger/equinox/issues/984\n        # In particular this allows for searching e.g. \x27filter_grad\x27 and to match \x27equinox.filter_grad\x27.",
  "\n        separator: \x27[\\s\\-,:!=\\[\\]()\"/]+|(?!\\b)(?=[A-Z][a-z])|\\.(?!\\d)|&[lg]t;\x27\n    - include_exclude_files:\n        include:\n            - \".htaccess\"\n        exclude:\n            - \"_overrides\"\n            - \"examples/.ipynb_checkpoints/\"\n            - \"examples/MNIST\"\n            - \"examples/bert_checkpoint.eqx\"\n    - ipynb\n    - hippogriffe:\n        extra_public_objects:\n            - equinox.if_array\n            - jax.ShapeDtypeStruct\n            - jax.extend.core.ClosedJaxpr\n            - jax.Device\n            - jax.sharding.Sharding\n    - mkdocstrings:\n        handlers:\n            python:\n                options:\n                    force_inspection: true\n                    heading",
  "_level: 4\n                    inherited_members: true\n                    members_order: source\n                    show_bases: false\n                    show_if_no_docstring: true\n                    show_overloads: false\n                    show_root_heading: true\n                    show_signature_annotations: true\n                    show_source: false\n                    show_symbol_type_heading: true\n                    show_symbol_type_toc: true\n\nnav:\n    - \x27index.md\x27\n    - \x27all-of-equinox.md\x27\n    - Examples:\n        - Introductory:\n            - \x27examples/mnist.ipynb\x27\n            - \x27examples/train_rnn.ipynb\x27\n        - Advanced:\n            - \x27examples/score_based_diffusion.ipynb\x27\n   ",
  "         - \x27examples/bert.ipynb\x27\n            - \x27examples/unet.ipynb\x27\n            - \x27examples/vision_transformer.ipynb\x27\n            - \x27examples/deep_convolutional_gan.ipynb\x27\n        - Features:\n            - \x27examples/frozen_layer.ipynb\x27\n            - \x27examples/init_apply.ipynb\x27\n            - \x27examples/stateful.ipynb\x27\n            - \x27examples/parallelism.ipynb\x27\n            - \x27examples/serialisation.ipynb\x27\n        - Awesome list: \x27awesome-list.md\x27\n    - Basic API:\n        - Modules:\n            - \x27api/module/module.md\x27\n            - \x27api/module/advanced_fields.md\x27\n        - Neural network layers:\n            - \x27api/nn/linear.md\x27\n            - \x27api/nn/conv.md\x27\n            - \x27api/nn/rnn.md\x27\n     ",
  "       - \x27api/nn/attention.md\x27\n            - \x27api/nn/activations.md\x27\n            - \x27api/nn/pool.md\x27\n            - \x27api/nn/dropout.md\x27\n            - \x27api/nn/normalisation.md\x27\n            - \x27api/nn/embedding.md\x27\n            - \x27api/nn/mlp.md\x27\n            - \x27api/nn/sequential.md\x27\n            - \x27api/nn/inference.md\x27\n            - \x27api/nn/shared.md\x27\n            - \x27api/nn/stateful.md\x27\n        - \x27api/transformations.md\x27\n        - \x27api/manipulation.md\x27\n    - Advanced API:\n        - \x27api/caches.md\x27\n        - \x27api/debug.md\x27\n        - \x27api/enumerations.md\x27\n        - \x27api/errors.md\x27\n        - \x27api/pretty-printing.md\x27\n        - \x27api/serialisation.md\x27\n    - Misc:\n        - \x27faq.md\x27\n        - \x27tricks.md\x27\n  ",
  "      # - \x27pattern.md\x27\n        - \x27citation.md\x27"]

/-- The contents of mkdocs.yml as one string. -/
def mkdocsText : String := concatStrs mkdocsChunks

/-- The YAML document of mkdocs.yml, mirroring the file. -/
def mkdocsYaml : Yaml :=
  Yaml.ymap [
    ("theme", Yaml.ymap [
      ("name", Yaml.scalar "material"),
      ("features", Yaml.seq [
        Yaml.scalar "navigation.sections",
        Yaml.scalar "toc.integrate",
        Yaml.scalar "header.autohide",
        Yaml.scalar "content.code.copy"]),
      ("palette", Yaml.seq [
        Yaml.ymap [
          ("scheme", Yaml.scalar "default"),
          ("primary", Yaml.scalar "white"),
          ("accent", Yaml.scalar "amber"),
          ("toggle", Yaml.ymap [
            ("icon", Yaml.scalar "material/weather-night"),
            ("name", Yaml.scalar "Switch to dark mode")])],
        Yaml.ymap [
          ("scheme", Yaml.scalar "slate"),
          ("primary", Yaml.scalar "black"),
          ("accent", Yaml.scalar "amber"),
          ("toggle", Yaml.ymap [
            ("icon", Yaml.scalar "material/weather-sunny"),
            ("name", Yaml.scalar "Switch to light mode")])]]),
      ("icon", Yaml.ymap [
        ("repo", Yaml.scalar "fontawesome/brands/github"),
        ("logo", Yaml.scalar "material/circle-opacity")]),
      ("favicon", Yaml.scalar "_static/favicon.png"),
      ("custom_dir", Yaml.scalar "docs/_overrides"),
      ("twitter_bluesky_name", Yaml.scalar "@PatrickKidger"),
      ("twitter_url", Yaml.scalar "https://twitter.com/PatrickKidger"),
      ("bluesky_url", Yaml.scalar "https://PatrickKidger.bsky.social")]),
    ("site_name", Yaml.scalar "Equinox"),
    ("site_description", Yaml.scalar "The documentation for the Equinox software library."),
    ("site_author", Yaml.scalar "Patrick Kidger"),
    ("site_url", Yaml.scalar "https://docs.kidger.site/equinox"),
    ("repo_url", Yaml.scalar "https://github.com/patrick-kidger/equinox"),
    ("repo_name", Yaml.scalar "patrick-kidger/equinox"),
    ("edit_uri", Yaml.scalar ""),
    ("strict", Yaml.scalar "true"),
    ("extra_javascript", Yaml.seq [
      Yaml.scalar "_static/mathjax.js",
      Yaml.scalar "https://cdn.jsdelivr.net/npm/mathjax@3/es5/tex-mml-chtml.js"]),
    ("extra_css", Yaml.seq [
      Yaml.scalar "_static/custom_css.css"]),
    ("markdown_extensions", Yaml.seq [
      Yaml.ymap [
        ("pymdownx.arithmatex", Yaml.ymap [
          ("generic", Yaml.scalar "true")])],
      Yaml.scalar "pymdownx.superfences",
      Yaml.scalar "pymdownx.details",
      Yaml.ymap [
        ("pymdownx.snippets", Yaml.ymap [
          ("base_path", Yaml.scalar "docs")])],
      Yaml.scalar "admonition",
      Yaml.ymap [
        ("toc", Yaml.ymap [
          ("permalink", Yaml.scalar "\u00a4"),
          ("toc_depth", Yaml.scalar "4")])]]),
    ("plugins", Yaml.seq [
      Yaml.ymap [
        ("search", Yaml.ymap [
          ("separator", Yaml.scalar "[\\s\\-,:!=\\[\\]()\"/]+|(?!\\b)(?=[A-Z][a-z])|\\.(?!\\d)|&[lg]t;")])],
      Yaml.ymap [
        ("include_exclude_files", Yaml.ymap [
          ("include", Yaml.seq [
            Yaml.scalar ".htaccess"]),
          ("exclude", Yaml.seq [
            Yaml.scalar "_overrides",
            Yaml.scalar "examples/.ipynb_checkpoints/",
            Yaml.scalar "examples/MNIST",
            Yaml.scalar "examples/bert_checkpoint.eqx"])])],
      Yaml.scalar "ipynb",
      Yaml.ymap [
        ("hippogriffe", Yaml.ymap [
          ("extra_public_objects", Yaml.seq [
            Yaml.scalar "equinox.if_array",
            Yaml.scalar "jax.ShapeDtypeStruct",
            Yaml.scalar "jax.extend.core.ClosedJaxpr",
            Yaml.scalar "jax.Device",
            Yaml.scalar "jax.sharding.Sharding"])])],
      Yaml.ymap [
        ("mkdocstrings", Yaml.ymap [
          ("handlers", Yaml.ymap [
            ("python", Yaml.ymap [
              ("options", Yaml.ymap [
                ("force_inspection", Yaml.scalar "true"),
                ("heading_level", Yaml.scalar "4"),
                ("inherited_members", Yaml.scalar "true"),
                ("members_order", Yaml.scalar "source"),
                ("show_bases", Yaml.scalar "false"),
                ("show_if_no_docstring", Yaml.scalar "true"),
                ("show_overloads", Yaml.scalar "false"),
                ("show_root_heading", Yaml.scalar "true"),
                ("show_signature_annotations", Yaml.scalar "true"),
                ("show_source", Yaml.scalar "false"),
                ("show_symbol_type_heading", Yaml.scalar "true"),
                ("show_symbol_type_toc", Yaml.scalar "true")])])])])]]),
    ("nav", Yaml.seq [
      Yaml.scalar "index.md",
      Yaml.scalar "all-of-equinox.md",
      Yaml.ymap [
        ("Examples", Yaml.seq [
          Yaml.ymap [
            ("Introductory", Yaml.seq [
              Yaml.scalar "examples/mnist.ipynb",
              Yaml.scalar "examples/train_rnn.ipynb"])],
          Yaml.ymap [
            ("Advanced", Yaml.seq [
              Yaml.scalar "examples/score_based_diffusion.ipynb",
              Yaml.scalar "examples/bert.ipynb",
              Yaml.scalar "examples/unet.ipynb",
              Yaml.scalar "examples/vision_transformer.ipynb",
              Yaml.scalar "examples/deep_convolutional_gan.ipynb"])],
          Yaml.ymap [
            ("Features", Yaml.seq [
              Yaml.scalar "examples/frozen_layer.ipynb",
              Yaml.scalar "examples/init_apply.ipynb",
              Yaml.scalar "examples/stateful.ipynb",
              Yaml.scalar "examples/parallelism.ipynb",
              Yaml.scalar "examples/serialisation.ipynb"])],
          Yaml.ymap [
            ("Awesome list", Yaml.scalar "awesome-list.md")]])],
      Yaml.ymap [
        ("Basic API", Yaml.seq [
          Yaml.ymap [
            ("Modules", Yaml.seq [
              Yaml.scalar "api/module/module.md",
              Yaml.scalar "api/module/advanced_fields.md"])],
          Yaml.ymap [
            ("Neural network layers", Yaml.seq [
              Yaml.scalar "api/nn/linear.md",
              Yaml.scalar "api/nn/conv.md",
              Yaml.scalar "api/nn/rnn.md",
              Yaml.scalar "api/nn/attention.md",
              Yaml.scalar "api/nn/activations.md",
              Yaml.scalar "api/nn/pool.md",
              Yaml.scalar "api/nn/dropout.md",
              Yaml.scalar "api/nn/normalisation.md",
              Yaml.scalar "api/nn/embedding.md",
              Yaml.scalar "api/nn/mlp.md",
              Yaml.scalar "api/nn/sequential.md",
              Yaml.scalar "api/nn/inference.md",
              Yaml.scalar "api/nn/shared.md",
              Yaml.scalar "api/nn/stateful.md"])],
          Yaml.scalar "api/transformations.md",
          Yaml.scalar "api/manipulation.md"])],
      Yaml.ymap [
        ("Advanced API", Yaml.seq [
          Yaml.scalar "api/caches.md",
          Yaml.scalar "api/debug.md",
          Yaml.scalar "api/enumerations.md",
          Yaml.scalar "api/errors.md",
          Yaml.scalar "api/pretty-printing.md",
          Yaml.scalar "api/serialisation.md"])],
      Yaml.ymap [
        ("Misc", Yaml.seq [
          Yaml.scalar "faq.md",
          Yaml.scalar "tricks.md",
          Yaml.scalar "citation.md"])]])]

/-- Look up a key in a JSON object's member list (first occurrence). -/
def jsonLookup (ms : List (String × Json)) (k : String) : Option Json :=
  match ms with
  | [] => none
  | (k2, v) :: rest => if k2 == k then some v else jsonLookup rest k

def isArrOpt : Option Json → Bool
  | some (.arr _) => true
  | _ => false

def isObjOpt : Option Json → Bool
  | some (.obj _) => true
  | _ => false

def isNumOpt : Option Json → Bool
  | some (.num _) => true
  | _ => false

/-- A notebook document carries the Jupyter top-level fields: a cells list, a
metadata object, and nbformat / nbformat_minor version numbers, with nbformat
equal to 4. -/
def notebookTopOk (j : Json) : Bool :=
  match j with
  | .obj ms =>
    isArrOpt (jsonLookup ms "cells")
    && isObjOpt (jsonLookup ms "metadata")
    && (match jsonLookup ms "nbformat" with
        | some (.num l) => l == "4"
        | _ => false)
    && isNumOpt (jsonLookup ms "nbformat_minor")
  | _ => false

/-- A notebook cell is a markdown or a code cell; a code cell additionally
carries an outputs list and an execution_count field. -/
def cellOk (c : Json) : Bool :=
  match c with
  | .obj ms =>
    match jsonLookup ms "cell_type" with
    | some (.str t) =>
      t == "markdown"
      || (t == "code"
          && isArrOpt (jsonLookup ms "outputs")
          && (jsonLookup ms "execution_count").isSome)
    | _ => false
  | _ => false

/-- Every element of the document's cells list satisfies `cellOk`. -/
def cellsOk (j : Json) : Bool :=
  match j with
  | .obj ms =>
    match jsonLookup ms "cells" with
    | some (.arr cs) => cs.all cellOk
    | _ => false
  | _ => false

/-- Look up a key in a YAML mapping's entry list (first occurrence). -/
def yamlLookup (es : List (String × Yaml)) (k : String) : Option Yaml :=
  match es with
  | [] => none
  | (k2, v) :: rest => if k2 == k then some v else yamlLookup rest k

/-- Modelled from the spec: the MkDocs configuration schema surface that the
spec describes (the MkDocs source itself is not part of the supplied files) —
a top-level mapping defining the field theme as a mapping of theme options,
plugins as a list of plugin options, and nav as the navigation list. -/
def mkdocsSchemaOk (y : Yaml) : Bool :=
  match y with
  | .ymap es =>
    (match yamlLookup es "theme" with
     | some (.ymap _) => true
     | _ => false)
    && (match yamlLookup es "plugins" with
        | some (.seq _) => true
        | _ => false)
    && (match yamlLookup es "nav" with
        | some (.seq _) => true
        | _ => false)
  | _ => false

/-- A function (or lambda) defined in a notebook's code cells, as a record of
the syntactic facts the specification speaks about: whether it is a generator
(contains yield) or an async def, how many assert and raise statements its own
body contains, which identifiers its body (decorators included) reads that
resolve in the notebook's module scope (imported-module aliases, module-level
definitions and module-level variables; Python builtins such as print, zip,
range, all and tuple are not module-scope bindings and are not listed), which
identifiers it reads from the locals of lexically enclosing functions, and
which module-level names it writes. -/
structure PyDef where
  notebook : String
  name : String
  parent : Option String
  isGen : Bool
  isAsyncFn : Bool
  assertStmts : Nat
  raiseStmts : Nat
  globalReads : List String
  globalWrites : List String
  enclosingReads : List String
deriving DecidableEq

/-- get_data in frozen_layer.ipynb. -/
def getDataDef : PyDef :=
  ⟨"frozen_layer", "get_data", none, false, false, 0, 0, ["jrandom"], [], []⟩

/-- dataloader in frozen_layer.ipynb: a generator (its body yields), with one
assert statement (the first-dimension consistency check), reading the
imported modules jnp and jrandom. -/
def dataloaderDef : PyDef :=
  ⟨"frozen_layer", "dataloader", none, true, false, 1, 0, ["jnp", "jrandom"], [], []⟩

/-- main in frozen_layer.ipynb. -/
def frozenMainDef : PyDef :=
  ⟨"frozen_layer", "main", none, false, false, 0, 0,
   ["jrandom", "get_data", "dataloader", "eqx", "jtu", "optax"], [], []⟩

/-- make_step in frozen_layer.ipynb, nested in main; it closes over main's
locals filter_spec and optim. -/
def frozenMakeStepDef : PyDef :=
  ⟨"frozen_layer", "make_step", some "main", false, false, 0, 0,
   ["eqx"], [], ["filter_spec", "optim"]⟩

/-- loss in frozen_layer.ipynb, nested in make_step. -/
def frozenLossDef : PyDef :=
  ⟨"frozen_layer", "loss", some "make_step", false, false, 0, 0,
   ["eqx", "jax", "jnp"], [], []⟩

/-- The lambda passed to jtu.tree_map in frozen_layer's main. -/
def frozenLambdaFalseDef : PyDef :=
  ⟨"frozen_layer", "lambda(tree_map)", some "main", false, false, 0, 0, [], [], []⟩

/-- The lambda passed to eqx.tree_at in frozen_layer's main. -/
def frozenLambdaTreeAtDef : PyDef :=
  ⟨"frozen_layer", "lambda(tree_at)", some "main", false, false, 0, 0, [], [], []⟩

/-- Model.__init__ in stateful.ipynb. -/
def modelInitDef : PyDef :=
  ⟨"stateful", "Model.__init__", none, false, false, 0, 0, ["jr", "eqx"], [], []⟩

/-- Model.__call__ in stateful.ipynb. -/
def modelCallDef : PyDef :=
  ⟨"stateful", "Model.__call__", none, false, false, 0, 0, ["jax"], [], []⟩

/-- compute_loss in stateful.ipynb. -/
def computeLossDef : PyDef :=
  ⟨"stateful", "compute_loss", none, false, false, 0, 0, ["jax", "jnp"], [], []⟩

/-- make_step in stateful.ipynb, a module-level def that reads the
module-level variable optim (bound by a later cell) as well as eqx and
compute_loss. -/
def statefulMakeStepDef : PyDef :=
  ⟨"stateful", "make_step", none, false, false, 0, 0,
   ["eqx", "compute_loss", "optim"], [], []⟩

/-- evaluate in stateful.ipynb. -/
def evaluateDef : PyDef :=
  ⟨"stateful", "evaluate", none, false, false, 0, 0, ["eqx", "jax"], [], []⟩

/-- make_mlp in init_apply.ipynb. -/
def makeMlpDef : PyDef :=
  ⟨"init_apply", "make_mlp", none, false, false, 0, 0, ["eqx"], [], []⟩

/-- init_fn in init_apply.ipynb, nested in make_mlp; it closes over
make_mlp's local params. -/
def initFnDef : PyDef :=
  ⟨"init_apply", "init_fn", some "make_mlp", false, false, 0, 0, [], [], ["params"]⟩

/-- apply_fn in init_apply.ipynb, nested in make_mlp; it closes over
make_mlp's local static. -/
def applyFnDef : PyDef :=
  ⟨"init_apply", "apply_fn", some "make_mlp", false, false, 0, 0, ["eqx"], [], ["static"]⟩

/-- main in init_apply.ipynb, with one assert statement (y1 != y2). -/
def initApplyMainDef : PyDef :=
  ⟨"init_apply", "main", none, false, false, 1, 0,
   ["jrandom", "make_mlp", "jnp", "jtu"], [], []⟩

/-- The lambda passed to jtu.tree_map in init_apply's main. -/
def initApplyLambdaDef : PyDef :=
  ⟨"init_apply", "lambda(tree_map)", some "main", false, false, 0, 0, [], [], []⟩

/-- Every function and lambda defined in the three notebooks' code cells. -/
def pyDefs : List PyDef :=
  [getDataDef, dataloaderDef, frozenMainDef, frozenMakeStepDef, frozenLossDef,
   frozenLambdaFalseDef, frozenLambdaTreeAtDef,
   modelInitDef, modelCallDef, computeLossDef, statefulMakeStepDef, evaluateDef,
   makeMlpDef, initFnDef, applyFnDef, initApplyMainDef, initApplyLambdaDef]

/-- The module-scope bindings of each notebook: imported-module aliases,
module-level def / class names, and module-level variables assigned by the
notebook's top-level code. -/
def moduleScopeNames (nb : String) : List String :=
  if nb == "frozen_layer" then
    ["eqx", "jax", "jnp", "jrandom", "jtu", "optax", "get_data", "dataloader", "main"]
  else if nb == "stateful" then
    ["eqx", "jax", "jnp", "jr", "optax", "Model", "compute_loss", "make_step", "evaluate",
     "dataset_size", "learning_rate", "steps", "seed", "key", "mkey", "xkey", "xkey2",
     "model", "state", "xs", "ys", "optim", "opt_state", "inference_model",
     "test_dataset_size", "test_xs", "pred_test_ys"]
  else if nb == "init_apply" then
    ["eqx", "jnp", "jrandom", "jtu", "make_mlp", "main"]
  else []

/-- The modules imported by each notebook (full module paths). -/
def notebookImports : List (String × List String) :=
  [("stateful", ["equinox", "jax", "jax.numpy", "jax.random", "optax"]),
   ("frozen_layer", ["equinox", "jax", "jax.numpy", "jax.random", "jax.tree_util", "optax"]),
   ("init_apply", ["equinox", "jax.numpy", "jax.random", "jax.tree_util"])]

/-- Python standard-library modules that provide threads, processes, locks or
asynchronous tasks. -/
def concurrencyModules : List String :=
  ["threading", "_thread", "multiprocessing", "concurrent.futures", "asyncio",
   "subprocess", "queue"]

/-- The first-dimension consistency check asserted by dataloader, translated
from `all(array.shape[0] == dataset_size for array in arrays)` with
dataset_size the first array's first dimension: the function itself raises
AssertionError exactly when this is false. -/
def dataloaderShapesOk (shapes : List Nat) : Bool :=
  match shapes with
  | [] => true
  | s0 :: _ => shapes.all (fun s => s == s0)

/-- The inner while-loop of dataloader in frozen_layer.ipynb, translated
statement by statement: while `stop < n` it yields the slice
`perm[start:stop]` and advances `start, stop := stop, stop + b`; the fuel
argument bounds the number of iterations evaluated (the loop itself has no
other exit). Python's slice `perm[start:stop]` is `(perm.drop start).take
(stop - start)`. -/
def batchLoop (perm : List Nat) (n b : Nat) : Nat → Nat → Nat → List (List Nat)
  | 0, _, _ => []
  | fuel + 1, start, stop =>
    if stop < n then
      ((perm.drop start).take (stop - start)) :: batchLoop perm n b fuel stop (stop + b)
    else []

/-- One pass of the outer while-True loop of dataloader: the batches of
positions yielded from one freshly drawn permutation, with `n` the dataset
size (the permutation's length) and starting from `start = 0`,
`stop = batch_size`. The fuel `n + 1` is enough for every terminating run of
the inner loop (proved below for `0 < b`). -/
def dataloaderPass (perm : List Nat) (b : Nat) : List (List Nat) :=
  batchLoop perm perm.length b (perm.length + 1) 0 b

/-- The batches yielded by the dataloader generator during its first k outer
iterations, where `perms i` is the permutation drawn in iteration i (the
draws from jrandom.permutation are abstract here). -/
def dataloaderYieldsUpTo (perms : Nat → List Nat) (b k : Nat) : List (List Nat) :=
  ((List.range k).map (fun i => dataloaderPass (perms i) b)).flatten

theorem batchLoop_length (perm : List Nat) (n b : Nat) (hb : 0 < b) :
    ∀ fuel start, n - start ≤ b * fuel →
      (batchLoop perm n b fuel start (start + b)).length = (n - start - 1) / b := by
  intro fuel
  induction fuel with
  | zero =>
    intro start h
    have h1 : n - start - 1 = 0 := by omega
    simp [batchLoop, h1]
  | succ fuel ih =>
    intro start h
    rw [batchLoop]
    split
    case isTrue h2 =>
      have hmul : b * (fuel + 1) = b * fuel + b := by ring
      have h3 : n - (start + b) ≤ b * fuel := by omega
      have h4 := ih (start + b) h3
      simp only [List.length_cons, h4]
      have h5 : b ≤ n - start - 1 := by omega
      rw [Nat.div_eq_sub_div hb h5]
      have h6 : n - start - 1 - b = n - (start + b) - 1 := by omega
      rw [h6]
    case isFalse h2 =>
      have h5 : n - start - 1 < b := by omega
      simp [Nat.div_eq_of_lt h5]

theorem batchLoop_flatten (perm : List Nat) (n b : Nat) (hb : 0 < b) :
    ∀ fuel start, n - start ≤ b * fuel →
      (batchLoop perm n b fuel start (start + b)).flatten
        = (perm.drop start).take (b * ((n - start - 1) / b)) := by
  intro fuel
  induction fuel with
  | zero =>
    intro start h
    have h1 : n - start - 1 = 0 := by omega
    simp [batchLoop, h1]
  | succ fuel ih =>
    intro start h
    rw [batchLoop]
    split
    case isTrue h2 =>
      have hmul : b * (fuel + 1) = b * fuel + b := by ring
      have h3 : n - (start + b) ≤ b * fuel := by omega
      rw [List.flatten_cons, ih (start + b) h3]
      have h8 : start + b - start = b := by omega
      rw [h8]
      have h5 : b ≤ n - start - 1 := by omega
      rw [Nat.div_eq_sub_div hb h5]
      have h6 : n - start - 1 - b = n - (start + b) - 1 := by omega
      rw [← h6]
      have h7 : b * ((n - start - 1 - b) / b + 1) = b + b * ((n - start - 1 - b) / b) := by
        ring
      rw [h7, List.take_add, List.drop_drop]
    case isFalse h2 =>
      have h5 : n - start - 1 < b := by omega
      simp [Nat.div_eq_of_lt h5]

theorem batchLoop_sizes (perm : List Nat) (b : Nat) :
    ∀ fuel start batch,
      batch ∈ batchLoop perm perm.length b fuel start (start + b) → batch.length = b := by
  intro fuel
  induction fuel with
  | zero => intro start batch h; simp [batchLoop] at h
  | succ fuel ih =>
    intro start batch h
    rw [batchLoop] at h
    split at h
    case isTrue h2 =>
      rcases List.mem_cons.mp h with h3 | h3
      · subst h3
        rw [List.length_take, List.length_drop]
        have h8 : start + b - start = b := by omega
        rw [h8]
        omega
      · exact ih (start + b) batch h3
    case isFalse h2 => simp at h

/-- The trailing-batch arithmetic: with 0 < b < n and b dividing n, the inner
loop stops one full batch short of the dataset. -/
theorem trailing_dropped (n b : Nat) (hb : 0 < b) (hbn : b < n) (hdvd : b ∣ n) :
    b * ((n - 1) / b) = n - b := by
  obtain ⟨m, rfl⟩ := hdvd
  have hmb : b * (m - 1) = b * m - b := Nat.mul_sub_one ..
  have h1 : b * m - 1 = b * (m - 1) + (b - 1) := by omega
  rw [h1, Nat.mul_add_div hb, Nat.div_eq_of_lt (by omega), Nat.add_zero, hmb]

/-- Modelled from the spec: a PyTree of parameter leaves is a list of values
(leaves indexed in tree order) and a filter specification is a same-shaped
list of Booleans. `eqx.partition(model, filter_spec)` splits the model into
the tree of leaves marked True (others None): this is its first component. -/
def partitionDiff (spec : List Bool) (m : List Int) : List (Option Int) :=
  List.zipWith (fun s x => if s then some x else none) spec m

/-- Modelled from the spec: the second component of `eqx.partition` — the
tree of leaves marked False (others None). -/
def partitionStatic (spec : List Bool) (m : List Int) : List (Option Int) :=
  List.zipWith (fun s x => if s then none else some x) spec m

/-- Modelled from the spec: `eqx.combine` merges two partitioned trees,
taking at each leaf whichever side is not None. -/
def combineT (d s : List (Option Int)) : List Int :=
  List.zipWith (fun a b => a.getD (b.getD 0)) d s

/-- Modelled from the spec: `eqx.filter_grad` differentiates with respect to
the first (filtered) argument only: the gradient tree carries a value exactly
at the leaves where the filtered tree does and None elsewhere. The numeric
gradient itself is an arbitrary structure-preserving function g. -/
def maskLike (d : List (Option Int)) (g : List Int) : List (Option Int) :=
  List.zipWith (fun a v => a.map (fun _ => v)) d g

/-- Modelled from the spec: `eqx.apply_updates(model, updates)` adds the
update at each leaf where one is present and returns the leaf unchanged where
the update is None. -/
def applyUpdatesT (m : List Int) (u : List (Option Int)) : List Int :=
  List.zipWith (fun x ou => match ou with | some v => x + v | none => x) m u

/-- Modelled from the spec: the body of make_step in frozen_layer.ipynb —
partition the model by filter_spec, differentiate the loss with respect to
the diff part (g is the abstract numeric gradient), transform the gradients
with the optimiser (OU, abstract), and apply the updates to the model. -/
def makeStepT (spec : List Bool) (OU : List (Option Int) → List (Option Int))
    (g : List Int → List Int) (m : List Int) : List Int :=
  applyUpdatesT m
    (OU (maskLike (partitionDiff spec m)
      (g (combineT (partitionDiff spec m) (partitionStatic spec m)))))

/-- The filter_spec built in frozen_layer.ipynb: False at every leaf
(`jtu.tree_map(lambda _: False, model)`), then True at the two leaves for
layers[-1].weight and layers[-1].bias (`eqx.tree_at ... replace=(True,
True)`), here at leaf positions w and b. -/
def filterSpecT (numLeaves w b : Nat) : List Bool :=
  ((List.replicate numLeaves false).set w true).set b true

theorem zipWith_getElem? {α β γ : Type} (f : α → β → γ) :
    ∀ (as : List α) (bs : List β) (i : Nat),
      (List.zipWith f as bs)[i]? = (as[i]?).bind (fun a => (bs[i]?).map (f a)) := by
  intro as
  induction as with
  | nil => intro bs i; simp
  | cons a as ih =>
    intro bs i
    cases bs with
    | nil => simp
    | cons b bs =>
      cases i with
      | zero => simp
      | succ j => simpa using ih bs j

theorem makeStepT_frame (L w b : Nat) (m : List Int) (hm : m.length = L)
    (OU : List (Option Int) → List (Option Int))
    (hOUlen : ∀ gs, (OU gs).length = gs.length)
    (hOUnone : ∀ (gs : List (Option Int)) (j : Nat),
      gs[j]? = some none → (OU gs)[j]? = some none)
    (g : List Int → List Int) (hg : ∀ xs, (g xs).length = xs.length)
    (i : Nat) (hiw : i ≠ w) (hib : i ≠ b) :
    (makeStepT (filterSpecT L w b) OU g m)[i]? = m[i]? := by
  have hspec_len : (filterSpecT L w b).length = L := by
    simp [filterSpecT]
  have hd_len : (partitionDiff (filterSpecT L w b) m).length = L := by
    simp [partitionDiff, hspec_len, hm]
  have hs_len : (partitionStatic (filterSpecT L w b) m).length = L := by
    simp [partitionStatic, hspec_len, hm]
  have hcomb_len :
      (combineT (partitionDiff (filterSpecT L w b) m)
        (partitionStatic (filterSpecT L w b) m)).length = L := by
    simp [combineT, hd_len, hs_len]
  have hG_len :
      (g (combineT (partitionDiff (filterSpecT L w b) m)
        (partitionStatic (filterSpecT L w b) m))).length = L := by
    rw [hg, hcomb_len]
  have hgr_len :
      (maskLike (partitionDiff (filterSpecT L w b) m)
        (g (combineT (partitionDiff (filterSpecT L w b) m)
          (partitionStatic (filterSpecT L w b) m)))).length = L := by
    simp [maskLike, hd_len, hG_len]
  by_cases hi : i < L
  · have hspec_i : (filterSpecT L w b)[i]? = some false := by
      rw [filterSpecT, List.getElem?_set_ne (Ne.symm hib), List.getElem?_set_ne (Ne.symm hiw),
        List.getElem?_replicate]
      simp [hi]
    obtain ⟨x, hx⟩ : ∃ x, m[i]? = some x := by
      have h5 : i < m.length := by omega
      exact ⟨m[i], List.getElem?_eq_getElem h5⟩
    have hd_i : (partitionDiff (filterSpecT L w b) m)[i]? = some none := by
      rw [partitionDiff, zipWith_getElem?, hspec_i, hx]
      simp
    obtain ⟨v, hv⟩ :
        ∃ v, (g (combineT (partitionDiff (filterSpecT L w b) m)
          (partitionStatic (filterSpecT L w b) m)))[i]? = some v := by
      refine ⟨_, List.getElem?_eq_getElem (by rw [hG_len]; omega)⟩
    have hgr_i :
        (maskLike (partitionDiff (filterSpecT L w b) m)
          (g (combineT (partitionDiff (filterSpecT L w b) m)
            (partitionStatic (filterSpecT L w b) m))))[i]? = some none := by
      rw [maskLike, zipWith_getElem?, hd_i, hv]
      simp
    have hup_i := hOUnone _ i hgr_i
    rw [makeStepT, applyUpdatesT, zipWith_getElem?, hx, hup_i]
    simp
  · have h1 : m[i]? = none := List.getElem?_eq_none (by omega)
    have h2 : (makeStepT (filterSpecT L w b) OU g m)[i]? = none := by
      refine List.getElem?_eq_none ?_
      rw [makeStepT, applyUpdatesT]
      rw [List.length_zipWith, hOUlen, hgr_len, hm]
      omega
    rw [h1, h2]

/-- The files of the supplied repository material, with their contents. -/
def repoFiles : List (String × String) :=
  [("docs/examples/frozen_layer.ipynb", frozenLayerText),
   ("docs/examples/init_apply.ipynb", initApplyText),
   ("docs/examples/stateful.ipynb", statefulText),
   ("mkdocs.yml", mkdocsText)]

/-- The paths of the example notebooks. -/
def exampleNotebookPaths : List String :=
  ["docs/examples/frozen_layer.ipynb", "docs/examples/init_apply.ipynb",
   "docs/examples/stateful.ipynb"]

/-- A fixed permutation stream for the C5 witness: every outer iteration
draws [0, 1, 2]. -/
def constPerm3 : Nat → List Nat := fun _ => [0, 1, 2]

/-- Claim C1: the three notebook files under docs/examples parse as valid
JSON (each to its document term), and mkdocs.yml parses as YAML and conforms
to the MkDocs configuration schema surface the spec describes (top-level
theme, plugins and nav fields). -/
theorem claim1_documents_parse :
    jsonParse statefulText = some statefulJson
  ∧ jsonParse frozenLayerText = some frozenLayerJson
  ∧ jsonParse initApplyText = some initApplyJson
  ∧ yamlParse mkdocsText = some mkdocsYaml
  ∧ mkdocsSchemaOk mkdocsYaml = true :=
  ⟨rfl, rfl, rfl, rfl, rfl⟩

/-- Claim C2 counterexample: it is false that every function defined in the
notebooks reads no module-scope binding and is not a generator — already
get_data reads the imported module jrandom, and dataloader (the second entry
of the catalogue) is a generator that reads jnp and jrandom. -/
theorem claim2_counterexample :
    (pyDefs.all (fun f => f.globalReads.isEmpty && !f.isGen)) = false
  ∧ pyDefs[1]? = some dataloaderDef
  ∧ dataloaderDef.isGen = true
  ∧ dataloaderDef.globalReads = ["jnp", "jrandom"] :=
  ⟨rfl, rfl, rfl, rfl⟩

/-- Claim C2 as amended: exactly one defined function — dataloader in
frozen_layer — is a generator; every module-scope identifier a defined
function reads is a binding of its notebook's module scope (imported-module
aliases, module-level definitions, and module-level variables such as optim
read by stateful's make_step); no function writes a module-level name and
none is an async def. -/
theorem claim2_amended_scope :
    (pyDefs.all (fun f =>
        f.isGen == ((f.notebook == "frozen_layer") && (f.name == "dataloader")))) = true
  ∧ (pyDefs.all (fun f =>
        f.globalReads.all (fun gname => (moduleScopeNames f.notebook).contains gname))) = true
  ∧ (pyDefs.all (fun f => f.globalWrites.isEmpty)) = true
  ∧ (pyDefs.all (fun f => !f.isAsyncFn)) = true :=
  ⟨rfl, rfl, rfl, rfl⟩

/-- Claim C3 counterexample: it is false that no function defined in the
notebooks raises or asserts itself — dataloader contains an assert statement
(its first-dimension consistency check, which fails e.g. on arrays with first
dimensions 2 and 3), and init_apply's main asserts y1 != y2. -/
theorem claim3_counterexample :
    (pyDefs.all (fun f => (f.assertStmts == 0) && (f.raiseStmts == 0))) = false
  ∧ dataloaderDef.assertStmts = 1
  ∧ dataloaderShapesOk [2, 3] = false
  ∧ initApplyMainDef.assertStmts = 1 :=
  ⟨rfl, rfl, rfl, rfl⟩

/-- Claim C3 as amended: the notebooks' own code contains no raise statement,
and no assert statements except exactly one in frozen_layer's dataloader (the
first-dimension consistency check) and exactly one in init_apply's main
(`assert y1 != y2`). -/
theorem claim3_amended_assert_only :
    (pyDefs.all (fun f => f.raiseStmts == 0)) = true
  ∧ (pyDefs.all (fun f =>
      (f.assertStmts == 0)
      || ((f.notebook == "frozen_layer") && (f.name == "dataloader"))
      || ((f.notebook == "init_apply") && (f.name == "main")))) = true
  ∧ dataloaderDef.assertStmts = 1
  ∧ initApplyMainDef.assertStmts = 1 :=
  ⟨rfl, rfl, rfl, rfl⟩

/-- Claim C4: for a dataset of size n = perm.length and a batch size b with
0 < b < n, one pass of dataloader's inner loop yields exactly (n-1)/b
batches; each batch has exactly b positions; the yielded positions are
precisely the first b*((n-1)/b) entries of the freshly drawn permutation (so
the trailing n - b*((n-1)/b) positions are never yielded) and are pairwise
distinct; and when b divides n the dropped trailing segment is exactly one
full batch, b*((n-1)/b) = n - b. -/
theorem claim4_dataloader_pass (perm : List Nat) (n b : Nat) (hn : perm.length = n)
    (hperm : perm.Perm (List.range n)) (hb : 0 < b) (hbn : b < n) :
    (dataloaderPass perm b).length = (n - 1) / b
  ∧ (∀ batch ∈ dataloaderPass perm b, batch.length = b)
  ∧ (dataloaderPass perm b).flatten = perm.take (b * ((n - 1) / b))
  ∧ ((dataloaderPass perm b).flatten).Nodup
  ∧ (b ∣ n → b * ((n - 1) / b) = n - b) := by
  subst hn
  have hfuel : perm.length - 0 ≤ b * (perm.length + 1) := by
    have h1 : 1 * (perm.length + 1) ≤ b * (perm.length + 1) :=
      Nat.mul_le_mul_right _ hb
    omega
  have hlen := batchLoop_length perm perm.length b hb (perm.length + 1) 0 hfuel
  have hflat := batchLoop_flatten perm perm.length b hb (perm.length + 1) 0 hfuel
  have hsz := batchLoop_sizes perm b (perm.length + 1) 0
  rw [Nat.zero_add] at hlen hflat hsz
  simp only [Nat.sub_zero, List.drop_zero] at hlen hflat
  have hnd : perm.Nodup := hperm.symm.nodup (List.nodup_range _)
  refine ⟨hlen, hsz, hflat, ?_, fun hdvd => trailing_dropped perm.length b hb hbn hdvd⟩
  rw [dataloaderPass, hflat]
  exact hnd.sublist (List.take_sublist ..)

/-- Witness for C4 at perm = [2,0,1,3,4] (a permutation of range 5) and
b = 2: two batches are yielded, covering the first four positions, pairwise
distinct. -/
theorem claim4_witness :
    (dataloaderPass [2, 0, 1, 3, 4] 2).length = (5 - 1) / 2
  ∧ (dataloaderPass [2, 0, 1, 3, 4] 2).flatten = [2, 0, 1, 3, 4].take (2 * ((5 - 1) / 2))
  ∧ ((dataloaderPass [2, 0, 1, 3, 4] 2).flatten).Nodup :=
  ⟨(claim4_dataloader_pass [2, 0, 1, 3, 4] 5 2 (by decide) (by decide) (by decide)
      (by decide)).1,
   (claim4_dataloader_pass [2, 0, 1, 3, 4] 5 2 (by decide) (by decide) (by decide)
      (by decide)).2.2.1,
   (claim4_dataloader_pass [2, 0, 1, 3, 4] 5 2 (by decide) (by decide) (by decide)
      (by decide)).2.2.2.1⟩

/-- Claim C5: when the batch size b is at least the dataset size n, the inner
loop's guard `end < dataset_size` is false at once, so no outer iteration
yields a batch — after any number k of outer iterations the generator has
yielded nothing — and consequently a consumer such as main's
`zip(range(steps), data_iter)` loop with steps ≥ 1 never completes: no number
of outer iterations produces the steps batches it needs. -/
theorem claim5_dataloader_starves (perms : Nat → List Nat) (n b : Nat)
    (hlen : ∀ i, (perms i).length = n) (hb : n ≤ b) :
    (∀ k, dataloaderYieldsUpTo perms b k = [])
  ∧ (∀ steps k, 1 ≤ steps → ¬ steps ≤ (dataloaderYieldsUpTo perms b k).length) := by
  have hpass : ∀ i, dataloaderPass (perms i) b = [] := by
    intro i
    have h2 : ¬ (b < (perms i).length) := by rw [hlen i]; omega
    rw [dataloaderPass, batchLoop, if_neg h2]
  have hnil : ∀ k, dataloaderYieldsUpTo perms b k = [] := by
    intro k
    rw [dataloaderYieldsUpTo, List.flatten_eq_nil_iff]
    intro x hx
    obtain ⟨i, -, h⟩ := List.mem_map.mp hx
    rw [← h]
    exact hpass i
  refine ⟨hnil, ?_⟩
  intro steps k h1 h2
  rw [hnil k] at h2
  simp at h2
  omega

/-- Witness for C5 at n = 3, b = 4, the constant permutation stream: six
outer iterations yield nothing, and a consumer needing one batch is not done
after them. -/
theorem claim5_witness :
    dataloaderYieldsUpTo constPerm3 4 6 = []
  ∧ ¬ 1 ≤ (dataloaderYieldsUpTo constPerm3 4 6).length :=
  ⟨(claim5_dataloader_starves constPerm3 3 4 (fun _ => rfl) (by decide)).1 6,
   (claim5_dataloader_starves constPerm3 3 4 (fun _ => rfl) (by decide)).2 1 6 (by decide)⟩

/-- Claim C6: make_step returns a model that agrees with the input model at
every leaf other than the two marked True in filter_spec (the positions w and
b standing for layers[-1].weight and layers[-1].bias), for any model leaves,
any structure-preserving numeric gradient g, and any optimiser transform OU
that keeps None gradient leaves None (as optax does on filtered gradients). -/
theorem claim6_make_step_frame (L w b : Nat) (m : List Int) (hm : m.length = L)
    (OU : List (Option Int) → List (Option Int))
    (hOUlen : ∀ gs, (OU gs).length = gs.length)
    (hOUnone : ∀ (gs : List (Option Int)) (j : Nat),
      gs[j]? = some none → (OU gs)[j]? = some none)
    (g : List Int → List Int) (hg : ∀ xs, (g xs).length = xs.length)
    (i : Nat) (hiw : i ≠ w) (hib : i ≠ b) :
    (makeStepT (filterSpecT L w b) OU g m)[i]? = m[i]? :=
  makeStepT_frame L w b m hm OU hOUlen hOUnone g hg i hiw hib

/-- Witness for C6: a four-leaf model with the last two leaves marked
trainable, the identity optimiser transform and identity gradient; leaf 0 is
returned unchanged. -/
theorem claim6_witness :
    (makeStepT (filterSpecT 4 2 3) (fun gs => gs) (fun xs => xs) [5, 6, 7, 8])[0]?
      = [(5 : Int), 6, 7, 8][0]? :=
  claim6_make_step_frame 4 2 3 [5, 6, 7, 8] rfl (fun gs => gs) (fun _ => rfl)
    (fun _ _ h => h) (fun xs => xs) (fun _ => rfl) 0 (by decide) (by decide)

/-- Claim C7: each notebook document carries the Jupyter top-level fields —
a cells list, a metadata object, nbformat equal to 4 and an nbformat_minor
number — and the site configuration defines the MkDocs fields theme, plugins
and nav. -/
theorem claim7_format_fields :
    notebookTopOk statefulJson = true
  ∧ notebookTopOk frozenLayerJson = true
  ∧ notebookTopOk initApplyJson = true
  ∧ mkdocsSchemaOk mkdocsYaml = true :=
  ⟨rfl, rfl, rfl, rfl⟩

/-- Claim C8: in each of the three notebooks, every cell is a markdown or a
code cell, and every code cell carries an outputs list and an
execution_count field. -/
theorem claim8_cell_fields :
    cellsOk statefulJson = true
  ∧ cellsOk frozenLayerJson = true
  ∧ cellsOk initApplyJson = true :=
  ⟨rfl, rfl, rfl⟩

/-- Claim C9: the supplied repository material consists of exactly four
files — the three example notebooks under docs/examples and the single site
configuration mkdocs.yml; every file is one of those two kinds. -/
theorem claim9_repo_inventory :
    repoFiles.map Prod.fst =
      ["docs/examples/frozen_layer.ipynb", "docs/examples/init_apply.ipynb",
       "docs/examples/stateful.ipynb", "mkdocs.yml"]
  ∧ (repoFiles.all (fun f => exampleNotebookPaths.contains f.1 || (f.1 == "mkdocs.yml"))) = true :=
  ⟨rfl, rfl⟩

/-- Claim C10: none of the notebooks imports a module providing threads,
processes, locks or asynchronous tasks; no defined function is an async def;
and no defined function reads any such module through the module scope. -/
theorem claim10_no_concurrency :
    (notebookImports.all (fun nb =>
        nb.2.all (fun mname => !(concurrencyModules.contains mname)))) = true
  ∧ (pyDefs.all (fun f => !f.isAsyncFn)) = true
  ∧ (pyDefs.all (fun f =>
        f.globalReads.all (fun gname => !(concurrencyModules.contains gname)))) = true :=
  ⟨rfl, rfl, rfl⟩
